import Mathlib

/-! # repk8s: refresh of a local Postgres database from a cluster pod

A shallow embedding of `main.go`.  The program is a straight line of external
`bash -c` invocations with deferred cleanup calls.  The embedding makes the three
effects of the Go code explicit:

* the external world is an outcome stream `Env`: the `n`-th command the program
  issues receives the result `env n`;
* the commands issued so far are recorded, with their results, in a `Trace`;
* a Go panic is the error case of the `Go` / `GoD` computations, and the `defer`
  stack of `main` is the `defers` field of its `Frame`.

Writes of the program to its own standard output (`fmt.Printf`, `fmt.Println`)
are not part of the model.  `cmd.Run()` is taken to fail exactly when the exit
status of the command is non-zero.  Go strings are modelled by Lean strings, and the
`%d` of the timestamp by `toString` on `Int`.  Of `init`, which reads the
configuration file and fills `config.access` and `config.pod`, only `mustGetAccess`
is modelled; `main` takes the finished `Config` as an argument.
-/

namespace Repk8s

/-! ## Data model -/

/-- Result of one external command: exit status and the two captured streams. -/
structure CmdResult where
  exitCode : Nat
  stdout : String
  stderr : String
  deriving DecidableEq, Repr

/-- One command handed to `bash -c`, together with what came back. -/
structure Issued where
  cmd : String
  result : CmdResult
  deriving DecidableEq, Repr

/-- The commands issued so far, oldest first. -/
abbrev Trace := List Issued

/-- The outside world: the result of the `n`-th command issued (counting from 0). -/
abbrev Env := Nat → CmdResult

/-- Values a Go panic can carry in this program. -/
inductive Panic where
  /-- The value of `panic(err)` in `mustRunLocalCmd`: an error with this message. -/
  | error (msg : String)
  /-- The runtime error of indexing a slice of length `len` at `index`. -/
  | indexOutOfRange (index len : Nat)
  deriving DecidableEq, Repr

/-- The Go struct `DbConfig`. -/
structure DbConfig where
  Host : String
  Port : String
  Database : String
  Username : String
  Password : String
  deriving DecidableEq, Repr

/-- The Go struct `Config` (the package-level variable `config`). -/
structure Config where
  Namespace : String
  PodPrefix : String
  CredentialCmd : String
  LocalDb : DbConfig
  RemoteDb : DbConfig
  access : String
  pod : String
  deriving DecidableEq, Repr

/-! ## Computations that may panic -/

/-- A Go function body without `defer`: it reads and extends the trace and either
returns a value or panics. -/
def Go (α : Type) : Type := Trace → Except Panic α × Trace

/-- Return a value. -/
def Go.pure {α : Type} (a : α) : Go α := fun t => (.ok a, t)

/-- Sequencing: a panic of the first part skips the second. -/
def Go.bind {α β : Type} (m : Go α) (k : α → Go β) : Go β := fun t =>
  match m t with
  | (.ok a, t1) => k a t1
  | (.error p, t1) => (.error p, t1)

instance : Monad Go where
  pure := Go.pure
  bind := Go.bind

/-- The Go statement `panic(v)`. -/
def Go.panic {α : Type} (p : Panic) : Go α := fun t => (.error p, t)

/-- The frame of a function that uses `defer`: the trace and the stack of deferred
calls, most recently deferred first. -/
structure Frame where
  trace : Trace
  defers : List (Go Unit)

/-- A Go function body that may use `defer`. -/
def GoD (α : Type) : Type := Frame → Except Panic α × Frame

/-- Return a value. -/
def GoD.pure {α : Type} (a : α) : GoD α := fun f => (.ok a, f)

/-- Sequencing: a panic of the first part skips the second. -/
def GoD.bind {α β : Type} (m : GoD α) (k : α → GoD β) : GoD β := fun f =>
  match m f with
  | (.ok a, f1) => k a f1
  | (.error p, f1) => (.error p, f1)

instance : Monad GoD where
  pure := GoD.pure
  bind := GoD.bind

/-- Calling a function from a body with `defer`: the callee sees the trace only. -/
def GoD.call {α : Type} (m : Go α) : GoD α := fun f =>
  match m f.trace with
  | (r, t1) => (r, { f with trace := t1 })

instance : MonadLift Go GoD where
  monadLift := GoD.call

/-- The Go statement `defer d()`: push the call on the stack of the frame. -/
def defer (d : Go Unit) : GoD Unit := fun f => (.ok (), { f with defers := d :: f.defers })

/-- Run the deferred calls, most recent first.  A deferred call that panics replaces
the current panic, and the calls below it on the stack still run. -/
def runDeferred : List (Go Unit) → Option Panic → Trace → Option Panic × Trace
  | [], p, t => (p, t)
  | d :: ds, p, t =>
    match d t with
    | (.ok _, t1) => runDeferred ds p t1
    | (.error q, t1) => runDeferred ds (some q) t1

/-- Run a body with an empty defer stack, then its deferred calls, whether the body
returned or panicked.  The result is the panic the function ends with, if any. -/
def runFunc (body : GoD Unit) (t : Trace) : Option Panic × Trace :=
  match body { trace := t, defers := [] } with
  | (.ok _, f) => runDeferred f.defers none f.trace
  | (.error p, f) => runDeferred f.defers (some p) f.trace

/-! ## The functions of `main.go` -/

/-- Go `runLocalCmd`: run `bash -c runCmd`.  The pair is Go's `(string, error)`; the
error is represented by its message, `none` being the nil error. -/
def runLocalCmd (env : Env) (runCmd : String) : Go (String × Option String) := fun t =>
  let r := env t.length
  let t1 := t ++ [{ cmd := runCmd, result := r }]
  if r.exitCode ≠ 0 then (.ok ("", some r.stderr), t1)
  else (.ok (r.stdout, none), t1)

/-- Go `mustRunLocalCmd`: panic with the error of `runLocalCmd`, if any. -/
def mustRunLocalCmd (env : Env) (runCmd : String) : Go String := do
  let (out, err) ← runLocalCmd env runCmd
  match err with
  | some e => Go.panic (.error e)
  | none => pure out

/-- Go `buildPsqlCmd`. -/
def buildPsqlCmd (db : DbConfig) (runDB runCmd : String) : String :=
  "PGPASSWORD=" ++ db.Password ++ " psql -h " ++ db.Host ++ " -p " ++ db.Port ++ " -U "
    ++ db.Username ++ " -d " ++ runDB ++ " -c \"" ++ runCmd ++ "\""

/-- Go `buildDumpCmd`. -/
def buildDumpCmd (db : DbConfig) (filename : String) : String :=
  "PGPASSWORD=" ++ db.Password ++ " pg_dump -h " ++ db.Host ++ " -p " ++ db.Port ++ " -U "
    ++ db.Username ++ " -d " ++ db.Database ++ " " ++ "-Fc -x" ++ " -f " ++ filename

/-- Go `buildRestoreCmd`. -/
def buildRestoreCmd (db : DbConfig) (database filename : String) : String :=
  "PGPASSWORD=" ++ db.Password ++ " pg_restore -h " ++ db.Host ++ " -p " ++ db.Port ++ " -U "
    ++ db.Username ++ " -d " ++ database ++ " " ++ "-x -O -c --if-exists" ++ " " ++ filename

/-- The command line `mustRunKubectlCmd` hands to `mustRunLocalCmd`. -/
def kubectlCmdLine (config : Config) (runCmd : String) : String :=
  config.access ++ " kubectl -n " ++ config.Namespace ++ " " ++ runCmd

/-- Go `mustRunKubectlCmd`. -/
def mustRunKubectlCmd (env : Env) (config : Config) (runCmd : String) : Go String :=
  mustRunLocalCmd env (kubectlCmdLine config runCmd)

/-- The command line `mustRunPodCmd` hands to `mustRunLocalCmd`. -/
def podCmdLine (config : Config) (runCmd : String) : String :=
  config.access ++ " kubectl exec -it " ++ config.pod ++ " -n " ++ config.Namespace
    ++ " -- bash -c '" ++ runCmd ++ "'"

/-- Go `mustRunPodCmd`. -/
def mustRunPodCmd (env : Env) (config : Config) (runCmd : String) : Go String :=
  mustRunLocalCmd env (podCmdLine config runCmd)

/-- The value of `backupFile` in `main`. -/
def backupFile (ts : Int) : String := "dump_" ++ toString ts ++ ".sql"

/-- The value of `backupFileLocal` in `main`. -/
def backupFileLocal (ts : Int) : String := "~/" ++ backupFile ts

/-- The value of `restoreDb` in `main`. -/
def restoreDb (config : Config) (ts : Int) : String :=
  config.LocalDb.Database ++ "_r_" ++ toString ts

/-- The value of `oldDb` in `main`. -/
def oldDb (config : Config) (ts : Int) : String :=
  config.LocalDb.Database ++ "_" ++ toString ts

/-- The body of Go `main`, `ts` being the value read from `time.Now().Unix()`. -/
def mainBody (env : Env) (config : Config) (ts : Int) : GoD Unit := do
  let _ ← (mustRunPodCmd env config "apt-get update && apt-get install -y lsb-release" : Go String)
  let _ ← (mustRunPodCmd env config
    "echo \"deb http://apt.postgresql.org/pub/repos/apt $(lsb_release -cs)-pgdg main\" > /etc/apt/sources.list.d/pgdg.list" : Go String)
  let _ ← (mustRunPodCmd env config
    "wget --quiet -O - https://www.postgresql.org/media/keys/ACCC4CF8.asc | apt-key add -" : Go String)
  let _ ← (mustRunPodCmd env config
    "apt-get update && apt-get -y install postgresql-client-12" : Go String)
  let _ ← (mustRunPodCmd env config (buildDumpCmd config.RemoteDb (backupFile ts)) : Go String)
  defer (do
    let _ ← mustRunPodCmd env config ("rm -f " ++ backupFile ts)
    pure ())
  let _ ← (mustRunKubectlCmd env config
    ("cp " ++ config.pod ++ ":/www/yield-engine/" ++ backupFile ts ++ " " ++ backupFileLocal ts) :
    Go String)
  defer (do
    let _ ← mustRunLocalCmd env ("rm -f " ++ backupFileLocal ts)
    pure ())
  let _ ← (mustRunLocalCmd env (buildPsqlCmd config.LocalDb config.LocalDb.Database
    ("CREATE DATABASE " ++ restoreDb config ts)) : Go String)
  defer (do
    let _ ← mustRunLocalCmd env (buildPsqlCmd config.LocalDb config.LocalDb.Database
      ("DROP DATABASE IF EXISTS " ++ restoreDb config ts))
    pure ())
  let _ ← (runLocalCmd env (buildRestoreCmd config.LocalDb (restoreDb config ts)
    (backupFileLocal ts)) : Go (String × Option String))
  let _ ← (mustRunLocalCmd env (buildPsqlCmd config.LocalDb (restoreDb config ts)
    ("ALTER DATABASE " ++ config.LocalDb.Database ++ " RENAME TO " ++ oldDb config ts)) :
    Go String)
  defer (do
    let _ ← mustRunLocalCmd env (buildPsqlCmd config.LocalDb config.LocalDb.Database
      ("DROP DATABASE " ++ oldDb config ts))
    pure ())
  let _ ← (mustRunLocalCmd env (buildPsqlCmd config.LocalDb (oldDb config ts)
    ("ALTER DATABASE " ++ restoreDb config ts ++ " RENAME TO " ++ config.LocalDb.Database)) :
    Go String)
  pure ()

/-- Go `main`, started with nothing issued yet: the panic it ends with, if any, and
every command it issued. -/
def main (env : Env) (config : Config) (ts : Int) : Option Panic × Trace :=
  runFunc (mainBody env config ts) []

/-- The command lines `main` issued, in order. -/
def issued (env : Env) (config : Config) (ts : Int) : List String :=
  (main env config ts).2.map Issued.cmd

/-! ## The command lines of `main` -/

/-- The first install command: `apt-get update` and `lsb-release`, in the pod. -/
def installCmd1 (config : Config) : String :=
  podCmdLine config "apt-get update && apt-get install -y lsb-release"

/-- The second install command: the pgdg source list, in the pod. -/
def installCmd2 (config : Config) : String :=
  podCmdLine config
    "echo \"deb http://apt.postgresql.org/pub/repos/apt $(lsb_release -cs)-pgdg main\" > /etc/apt/sources.list.d/pgdg.list"

/-- The third install command: the apt key, in the pod. -/
def installCmd3 (config : Config) : String :=
  podCmdLine config
    "wget --quiet -O - https://www.postgresql.org/media/keys/ACCC4CF8.asc | apt-key add -"

/-- The fourth install command: `postgresql-client-12`, in the pod. -/
def installCmd4 (config : Config) : String :=
  podCmdLine config "apt-get update && apt-get -y install postgresql-client-12"

/-- The pg_dump of the remote database to `backupFile`, in the pod. -/
def dumpCmd (config : Config) (ts : Int) : String :=
  podCmdLine config (buildDumpCmd config.RemoteDb (backupFile ts))

/-- The kubectl cp of the dump from the pod to `backupFileLocal`. -/
def copyCmd (config : Config) (ts : Int) : String :=
  kubectlCmdLine config
    ("cp " ++ config.pod ++ ":/www/yield-engine/" ++ backupFile ts ++ " " ++ backupFileLocal ts)

/-- The psql call `CREATE DATABASE restoreDb`, connected to the live database. -/
def createCmd (config : Config) (ts : Int) : String :=
  buildPsqlCmd config.LocalDb config.LocalDb.Database ("CREATE DATABASE " ++ restoreDb config ts)

/-- The pg_restore of `backupFileLocal` into `restoreDb`. -/
def restoreCmd (config : Config) (ts : Int) : String :=
  buildRestoreCmd config.LocalDb (restoreDb config ts) (backupFileLocal ts)

/-- The first rename: the live database to `oldDb`, connected to `restoreDb`. -/
def renameOldCmd (config : Config) (ts : Int) : String :=
  buildPsqlCmd config.LocalDb (restoreDb config ts)
    ("ALTER DATABASE " ++ config.LocalDb.Database ++ " RENAME TO " ++ oldDb config ts)

/-- The second rename: `restoreDb` to the live name, connected to `oldDb`. -/
def renameNewCmd (config : Config) (ts : Int) : String :=
  buildPsqlCmd config.LocalDb (oldDb config ts)
    ("ALTER DATABASE " ++ restoreDb config ts ++ " RENAME TO " ++ config.LocalDb.Database)

/-- The deferred `DROP DATABASE oldDb`, connected to the live name. -/
def dropOldCmd (config : Config) (ts : Int) : String :=
  buildPsqlCmd config.LocalDb config.LocalDb.Database ("DROP DATABASE " ++ oldDb config ts)

/-- The deferred `DROP DATABASE IF EXISTS restoreDb`, connected to the live name. -/
def dropRestoreCmd (config : Config) (ts : Int) : String :=
  buildPsqlCmd config.LocalDb config.LocalDb.Database
    ("DROP DATABASE IF EXISTS " ++ restoreDb config ts)

/-- The deferred removal of the local dump file. -/
def rmLocalCmd (ts : Int) : String := "rm -f " ++ backupFileLocal ts

/-- The deferred removal of the dump file in the pod. -/
def rmPodCmd (config : Config) (ts : Int) : String :=
  podCmdLine config ("rm -f " ++ backupFile ts)

/-- The ten command lines of the body of `main`, in program order. -/
def bodyCmds (config : Config) (ts : Int) : List String :=
  [installCmd1 config, installCmd2 config, installCmd3 config, installCmd4 config,
   dumpCmd config ts, copyCmd config ts, createCmd config ts, restoreCmd config ts,
   renameOldCmd config ts, renameNewCmd config ts]

/-- The four deferred command lines, in the order they run: last deferred first. -/
def cleanupCmds (config : Config) (ts : Int) : List String :=
  [dropOldCmd config ts, dropRestoreCmd config ts, rmLocalCmd ts, rmPodCmd config ts]



/-! ## Vocabulary for statements about runs -/

/-- The commands `cmds` recorded as issued from position `i` on, each with the result
the outside world gives at its position. -/
def recordFrom (env : Env) : Nat → List String → Trace
  | _, [] => []
  | i, c :: cs => { cmd := c, result := env i } :: recordFrom env (i + 1) cs

/-- The number of commands the body of `main` issues before it returns or panics:
every command but `pg_restore` (position 7) stops the body when it fails. -/
def bodyCount (env : Env) : Nat :=
  if (env 0).exitCode ≠ 0 then 1
  else if (env 1).exitCode ≠ 0 then 2
  else if (env 2).exitCode ≠ 0 then 3
  else if (env 3).exitCode ≠ 0 then 4
  else if (env 4).exitCode ≠ 0 then 5
  else if (env 5).exitCode ≠ 0 then 6
  else if (env 6).exitCode ≠ 0 then 7
  else if (env 8).exitCode ≠ 0 then 9
  else 10

/-- The command lines of a run, as a function of the outcomes: the body commands
issued, then the cleanups deferred so far, last deferred first. -/
def plan (env : Env) (config : Config) (ts : Int) : List String :=
  (bodyCmds config ts).take (bodyCount env)
    ++ (if bodyCount env = 10 then [dropOldCmd config ts] else [])
    ++ (if 9 ≤ bodyCount env then [dropRestoreCmd config ts] else [])
    ++ (if 7 ≤ bodyCount env then [rmLocalCmd ts] else [])
    ++ (if 6 ≤ bodyCount env then [rmPodCmd config ts] else [])

/-! ## Credential extraction

The two regular expressions of `mustGetAccess` are modelled by their documented
meaning in Go's `regexp` package: the match found is the leftmost one, and among the
matches starting there the one a backtracking search finds first, a greedy `(.+)`
trying the longest text first.  `.` matches every character but the newline. -/

/-- The character class `\s` of Go's `regexp`: tab, newline, form feed, carriage
return and space. -/
def isSpaceClass (c : Char) : Bool :=
  c == '\t' || c == '\n' || c == Char.ofNat 12 || c == '\r' || c == ' '

/-- The call `ReplaceAllString(cred, "")` for the expression `(?m)\s`: every character
of the class is removed. -/
def removeSpace (s : String) : String :=
  String.mk (s.data.filter fun c => !isSpaceClass c)

/-- The pieces a regular expression of this program is a sequence of. -/
inductive RegexItem where
  /-- Literal text. -/
  | lit (text : List Char)
  /-- The capturing group `(.+)`. -/
  | group
  deriving DecidableEq, Repr

/-- Remove the literal `l` from the front of the text, if the text starts with it. -/
def stripLit : List Char → List Char → Option (List Char)
  | [], s => some s
  | _ :: _, [] => none
  | c :: cs, d :: ds => if c = d then stripLit cs ds else none

/-- The group `(.+)` followed by the rest `k` of the expression: at least one
character other than the newline; taking one more character is tried before handing
over to `k`, so the longest text for which the rest matches is the one captured. -/
def matchGroup {β : Type} (k : List Char → Option β) : List Char → Option (List Char × β)
  | [] => none
  | c :: cs =>
    if c = '\n' then none
    else
      match matchGroup k cs with
      | some (g, r) => some (c :: g, r)
      | none =>
        match k cs with
        | some r => some ([c], r)
        | none => none

/-- Match a sequence of items at the start of the text: the captured groups and the
text left after the match. -/
def matchItems : List RegexItem → List Char → Option (List (List Char) × List Char)
  | [], s => some ([], s)
  | .lit l :: items, s =>
    match stripLit l s with
    | none => none
    | some s1 => matchItems items s1
  | .group :: items, s =>
    match matchGroup (matchItems items) s with
    | none => none
    | some (g, caps, rest) => some (g :: caps, rest)

/-- The leftmost match in the text: the matched text followed by the captured groups
(the slice Go returns for one match), and the text left after the match. -/
def findFirst (items : List RegexItem) : List Char → Option (List (List Char) × List Char)
  | [] =>
    match matchItems items [] with
    | some (caps, rest) => some ([] :: caps, rest)
    | none => none
  | c :: cs =>
    match matchItems items (c :: cs) with
    | some (caps, rest) => some ((c :: cs).take ((c :: cs).length - rest.length) :: caps, rest)
    | none => findFirst items cs

/-- Successive matches, each search starting where the previous match ended; `fuel`
bounds their number. -/
def findAllFrom (items : List RegexItem) : Nat → List Char → List (List (List Char))
  | 0, _ => []
  | fuel + 1, s =>
    match findFirst items s with
    | none => []
    | some (m, rest) => m :: findAllFrom items fuel rest

/-- Go `FindAllStringSubmatch(s, -1)` for an expression that matches non-empty text
only: all successive matches, each as the matched text followed by its groups. -/
def findAllStringSubmatch (items : List RegexItem) (s : String) : List (List String) :=
  (findAllFrom items (s.length + 1) s.data).map fun m => m.map String.mk

/-- The first literal piece of the credential expression: `"AccessKeyId":"`. -/
def keyIdLit : List Char := "\"AccessKeyId\":\"".data

/-- The second literal piece: `","SecretAccessKey":"`. -/
def secretLit : List Char := "\",\"SecretAccessKey\":\"".data

/-- The third literal piece: `","SessionToken":"`. -/
def tokenLit : List Char := "\",\"SessionToken\":\"".data

/-- The last literal piece: `","Expiration"`. -/
def expirationLit : List Char := "\",\"Expiration\"".data

/-- The expression
`"AccessKeyId":"(.+)","SecretAccessKey":"(.+)","SessionToken":"(.+)","Expiration"`. -/
def credRegex : List RegexItem :=
  [.lit keyIdLit, .group, .lit secretLit, .group, .lit tokenLit, .group, .lit expirationLit]

/-- Go slice indexing `l[i]`: a run-time panic when `i` is out of range. -/
def index {α : Type} (l : List α) (i : Nat) : Go α :=
  match l[i]? with
  | some a => pure a
  | none => Go.panic (.indexOutOfRange i l.length)

/-- Go `mustGetAccess`. -/
def mustGetAccess (env : Env) (config : Config) : Go String := do
  let _ ← mustRunLocalCmd env "aws sts get-caller-identity"
  let cred ← mustRunLocalCmd env config.CredentialCmd
  let cred := removeSpace cred
  let m := findAllStringSubmatch credRegex cred
  let m0 ← index m 0
  let m01 ← index m0 1
  let m02 ← index m0 2
  let m03 ← index m0 3
  pure ("AWS_ACCESS_KEY_ID=\"" ++ m01 ++ "\" AWS_SECRET_ACCESS_KEY=\"" ++ m02
    ++ "\" AWS_SESSION_TOKEN=\"" ++ m03 ++ "\"")

/-- The number of positions of the text at which the literal `l` occurs. -/
def countOcc (l : List Char) : List Char → Nat
  | [] => if (stripLit l []).isSome then 1 else 0
  | c :: cs => (if (stripLit l (c :: cs)).isSome then 1 else 0) + countOcc l cs

/-- The texts a sequence of items matches exactly, with the groups captured: the
meaning of the expression, independent of any search order. -/
def Denotes : List RegexItem → List Char → List (List Char) → Prop
  | [], w, caps => w = [] ∧ caps = []
  | .lit l :: items, w, caps => ∃ w1, w = l ++ w1 ∧ Denotes items w1 caps
  | .group :: items, w, caps =>
    ∃ g w1 caps1, w = g ++ w1 ∧ g ≠ [] ∧ '\n' ∉ g ∧ caps = g :: caps1 ∧ Denotes items w1 caps1

/-- Whether the trace records the command line `c` as issued with exit status 0. -/
def succeededIn (t : Trace) (c : String) : Bool :=
  t.any fun e => e.cmd == c && e.result.exitCode == 0

/-- Whether the trace records the command line `c` as issued. -/
def issuedIn (t : Trace) (c : String) : Bool :=
  t.any fun e => e.cmd == c

/-- The last character of a string, if any. -/
def lastChar (s : String) : Option Char := s.data.reverse.head?

/-- A configuration for concrete runs. -/
def sampleConfig : Config :=
  { Namespace := "ns", PodPrefix := "api", CredentialCmd := "cat cred.json",
    LocalDb :=
      { Host := "localhost", Port := "5432", Database := "app", Username := "me",
        Password := "pw" },
    RemoteDb :=
      { Host := "db.remote", Port := "5432", Database := "prod", Username := "ro",
        Password := "rpw" },
    access := "AWS_ACCESS_KEY_ID=\"A\"", pod := "api-0" }

/-- A world in which every command succeeds with empty output. -/
def allOkEnv : Env := fun _ => { exitCode := 0, stdout := "", stderr := "" }

/-- A world in which exactly the command at position `k` fails. -/
def failAtEnv (k : Nat) : Env := fun n =>
  if n = k then { exitCode := 1, stdout := "", stderr := "failed" }
  else { exitCode := 0, stdout := "", stderr := "" }

/-- A world in which exactly the commands at positions `k` and `l` fail. -/
def failAtBothEnv (k l : Nat) : Env := fun n =>
  if n = k ∨ n = l then { exitCode := 1, stdout := "", stderr := "failed" }
  else { exitCode := 0, stdout := "", stderr := "" }

/-- A credential output in the shape the credential command prints. -/
def sampleCred : String :=
  "\x7b \"AccessKeyId\": \"AK\",\n \"SecretAccessKey\": \"s/k\",\n \"SessionToken\": \"t=\",\n \"Expiration\": \"2020\" \x7d"

/-- A world in which every command succeeds and the second one prints `out`. -/
def credEnv (out : String) : Env := fun n =>
  if n = 1 then { exitCode := 0, stdout := out, stderr := "" }
  else { exitCode := 0, stdout := "", stderr := "" }


/-! ## The command lines are pairwise different -/

theorem toDigitsCore_mem : ∀ (fuel n : Nat) (ds : List Char) (c : Char),
    c ∈ Nat.toDigitsCore 10 fuel n ds → c ∈ ds ∨ ∃ m, m < 10 ∧ c = Nat.digitChar m := by
  intro fuel
  induction fuel with
  | zero => intro n ds c h; simp [Nat.toDigitsCore] at h; exact Or.inl h
  | succ f ih =>
    intro n ds c h
    simp only [Nat.toDigitsCore] at h
    split at h
    · rcases List.mem_cons.1 h with h | h
      · exact Or.inr ⟨n % 10, Nat.mod_lt _ (by decide), h⟩
      · exact Or.inl h
    · rcases ih _ _ _ h with h | h
      · rcases List.mem_cons.1 h with h | h
        · exact Or.inr ⟨n % 10, Nat.mod_lt _ (by decide), h⟩
        · exact Or.inl h
      · exact Or.inr h

theorem toDigitsCore_ne_nil : ∀ (fuel n : Nat) (ds : List Char),
    ds ≠ [] → Nat.toDigitsCore 10 fuel n ds ≠ [] := by
  intro fuel
  induction fuel with
  | zero => intro n ds h; simpa [Nat.toDigitsCore] using h
  | succ f ih =>
    intro n ds _
    simp only [Nat.toDigitsCore]
    split
    · simp
    · exact ih _ _ (by simp)

theorem natRepr_data (n : Nat) :
    ∃ c cs, (Nat.repr n).data = c :: cs ∧ ∃ m, m < 10 ∧ c = Nat.digitChar m := by
  have hne : Nat.toDigits 10 n ≠ [] := by
    unfold Nat.toDigits
    simp only [Nat.toDigitsCore]
    split
    · simp
    · exact toDigitsCore_ne_nil _ _ _ (by simp)
  have hmem : ∀ c ∈ Nat.toDigits 10 n, ∃ m, m < 10 ∧ c = Nat.digitChar m := by
    intro c hc
    rcases toDigitsCore_mem _ _ _ _ hc with h | h
    · simp at h
    · exact h
  cases hd : Nat.toDigits 10 n with
  | nil => exact absurd hd hne
  | cons c cs =>
    refine ⟨c, cs, ?_, hmem c (by simp [hd])⟩
    simp [Nat.repr, List.asString, hd]

/-- The decimal text of a timestamp starts with a digit or a minus sign. -/
theorem toString_int_data (ts : Int) :
    ∃ c cs, (toString ts).data = c :: cs ∧ (c = '-' ∨ ∃ m, m < 10 ∧ c = Nat.digitChar m) := by
  cases ts with
  | ofNat n =>
    obtain ⟨c, cs, h, hm⟩ := natRepr_data n
    exact ⟨c, cs, h, Or.inr hm⟩
  | negSucc n =>
    refine ⟨'-', (Nat.repr (n + 1)).data, ?_, Or.inl rfl⟩
    show ("-" ++ Nat.repr (Nat.succ n)).data = _
    simp [String.data_append]

theorem headChar_ne (c : Char) (h : c = '-' ∨ ∃ m, m < 10 ∧ c = Nat.digitChar m) :
    c ≠ 'r' ∧ c ≠ ' ' ∧ c ≠ '_' ∧ 'r' ≠ c := by
  rcases h with h | ⟨m, hm, h⟩
  · subst h; decide
  · subst h
    interval_cases m <;> decide



theorem str_append_left_cancel {a b c : String} (h : a ++ b = a ++ c) : b = c := by
  have := congrArg String.data h
  simp only [String.data_append, List.append_cancel_left_eq] at this
  exact String.ext this

theorem str_append_right_cancel {a b c : String} (h : a ++ c = b ++ c) : a = b := by
  have := congrArg String.data h
  simp only [String.data_append, List.append_cancel_right_eq] at this
  exact String.ext this

theorem lastChar_podCmdLine (config : Config) (x : String) :
    lastChar (podCmdLine config x) = some '\'' := by
  simp [lastChar, podCmdLine, String.data_append]

theorem lastChar_buildPsqlCmd (db : DbConfig) (x y : String) :
    lastChar (buildPsqlCmd db x y) = some '"' := by
  simp [lastChar, buildPsqlCmd, String.data_append]

theorem lastChar_copyCmd (config : Config) (ts : Int) :
    lastChar (copyCmd config ts) = some 'l' := by
  simp [lastChar, copyCmd, kubectlCmdLine, backupFileLocal, backupFile, String.data_append]

theorem lastChar_restoreCmd (config : Config) (ts : Int) :
    lastChar (restoreCmd config ts) = some 'l' := by
  simp [lastChar, restoreCmd, buildRestoreCmd, backupFileLocal, backupFile, String.data_append]

theorem lastChar_rmLocalCmd (ts : Int) : lastChar (rmLocalCmd ts) = some 'l' := by
  simp [lastChar, rmLocalCmd, backupFileLocal, backupFile, String.data_append]

theorem podCmdLine_inj {config : Config} {x y : String}
    (h : podCmdLine config x = podCmdLine config y) : x = y := by
  unfold podCmdLine at h
  exact str_append_left_cancel (str_append_right_cancel h)

theorem buildPsqlCmd_inj {db : DbConfig} {c1 s1 c2 s2 : String}
    (h : buildPsqlCmd db c1 s1 = buildPsqlCmd db c2 s2) :
    c1.data ++ (" -c \"".data ++ s1.data) = c2.data ++ (" -c \"".data ++ s2.data) := by
  unfold buildPsqlCmd at h
  have h1 := str_append_right_cancel h
  simp only [String.append_assoc] at h1
  have h2 := str_append_left_cancel (str_append_left_cancel (str_append_left_cancel
    (str_append_left_cancel (str_append_left_cancel (str_append_left_cancel
    (str_append_left_cancel (str_append_left_cancel (str_append_left_cancel h1))))))))
  simpa [String.data_append] using congrArg String.data h2

theorem podCmds_nodup (config : Config) (ts : Int) :
    [installCmd1 config, installCmd2 config, installCmd3 config, installCmd4 config,
      dumpCmd config ts, rmPodCmd config ts].Nodup := by
  simp only [List.nodup_cons, List.mem_cons, not_or, List.not_mem_nil, not_false_eq_true, List.nodup_nil, and_true]
  simp only [installCmd1, installCmd2, installCmd3, installCmd4, dumpCmd, rmPodCmd]
  repeat' apply And.intro
  all_goals intro h
  all_goals have h1 := podCmdLine_inj h
  all_goals first
    | exact absurd h1 (by decide)
    | (have h2 := congrArg (fun s => s.data.head?) h1
       simp [buildDumpCmd, String.data_append] at h2)

theorem psqlCmds_nodup (config : Config) (ts : Int) :
    [createCmd config ts, renameOldCmd config ts, renameNewCmd config ts,
      dropOldCmd config ts, dropRestoreCmd config ts].Nodup := by
  obtain ⟨c, cs, hts, hc⟩ := toString_int_data ts
  obtain ⟨hc1, hc2, hc3, hc4⟩ := headChar_ne c hc
  simp only [List.nodup_cons, List.mem_cons, not_or, List.not_mem_nil, not_false_eq_true, List.nodup_nil, and_true]
  simp only [createCmd, renameOldCmd, renameNewCmd, dropOldCmd, dropRestoreCmd]
  repeat' apply And.intro
  all_goals intro h
  all_goals have h1 := buildPsqlCmd_inj h
  on_goal 10 =>
    have h2 := congrArg List.length h1
    simp [restoreDb, oldDb, String.data_append, hts] at h2
    omega
  all_goals simp [restoreDb, oldDb, String.data_append, hts, hc1, hc2, hc3, hc4] at h1

theorem localCmds_nodup (config : Config) (ts : Int) :
    [copyCmd config ts, restoreCmd config ts, rmLocalCmd ts].Nodup := by
  simp only [List.nodup_cons, List.mem_cons, not_or, List.not_mem_nil, not_false_eq_true, List.nodup_nil, and_true]
  repeat' apply And.intro
  all_goals intro h
  all_goals have h1 := congrArg (fun s => s.data.reverse) h
  all_goals simp [copyCmd, restoreCmd, rmLocalCmd, kubectlCmdLine, buildRestoreCmd, backupFileLocal, backupFile, String.data_append] at h1


theorem lastChar_installCmd1 (config : Config) : lastChar (installCmd1 config) = some '\'' :=
  lastChar_podCmdLine _ _
theorem lastChar_installCmd2 (config : Config) : lastChar (installCmd2 config) = some '\'' :=
  lastChar_podCmdLine _ _
theorem lastChar_installCmd3 (config : Config) : lastChar (installCmd3 config) = some '\'' :=
  lastChar_podCmdLine _ _
theorem lastChar_installCmd4 (config : Config) : lastChar (installCmd4 config) = some '\'' :=
  lastChar_podCmdLine _ _
theorem lastChar_dumpCmd (config : Config) (ts : Int) :
    lastChar (dumpCmd config ts) = some '\'' := lastChar_podCmdLine _ _
theorem lastChar_rmPodCmd (config : Config) (ts : Int) :
    lastChar (rmPodCmd config ts) = some '\'' := lastChar_podCmdLine _ _
theorem lastChar_createCmd (config : Config) (ts : Int) :
    lastChar (createCmd config ts) = some '"' := lastChar_buildPsqlCmd _ _ _
theorem lastChar_renameOldCmd (config : Config) (ts : Int) :
    lastChar (renameOldCmd config ts) = some '"' := lastChar_buildPsqlCmd _ _ _
theorem lastChar_renameNewCmd (config : Config) (ts : Int) :
    lastChar (renameNewCmd config ts) = some '"' := lastChar_buildPsqlCmd _ _ _
theorem lastChar_dropOldCmd (config : Config) (ts : Int) :
    lastChar (dropOldCmd config ts) = some '"' := lastChar_buildPsqlCmd _ _ _
theorem lastChar_dropRestoreCmd (config : Config) (ts : Int) :
    lastChar (dropRestoreCmd config ts) = some '"' := lastChar_buildPsqlCmd _ _ _

theorem ne_of_lastChar {a b : String} {x y : Char} (ha : lastChar a = some x)
    (hb : lastChar b = some y) (hxy : x ≠ y) : a ≠ b := by
  intro hab
  rw [hab, hb] at ha
  exact hxy (Option.some.inj ha).symm

/-- The fourteen command lines of `main` are pairwise different strings, whatever the
configuration and the timestamp. -/
theorem allCmds_nodup (config : Config) (ts : Int) :
    (bodyCmds config ts ++ cleanupCmds config ts).Nodup := by
  have hpod := podCmds_nodup config ts
  have hpsql := psqlCmds_nodup config ts
  have hloc := localCmds_nodup config ts
  have h_installCmd1 := lastChar_installCmd1 config
  have h_installCmd2 := lastChar_installCmd2 config
  have h_installCmd3 := lastChar_installCmd3 config
  have h_installCmd4 := lastChar_installCmd4 config
  have h_dumpCmd := lastChar_dumpCmd config ts
  have h_copyCmd := lastChar_copyCmd config ts
  have h_createCmd := lastChar_createCmd config ts
  have h_restoreCmd := lastChar_restoreCmd config ts
  have h_renameOldCmd := lastChar_renameOldCmd config ts
  have h_renameNewCmd := lastChar_renameNewCmd config ts
  have h_dropOldCmd := lastChar_dropOldCmd config ts
  have h_dropRestoreCmd := lastChar_dropRestoreCmd config ts
  have h_rmLocalCmd := lastChar_rmLocalCmd ts
  have h_rmPodCmd := lastChar_rmPodCmd config ts
  simp only [List.nodup_cons, List.mem_cons, not_or, List.not_mem_nil, not_false_eq_true,
    List.nodup_nil, and_true] at hpod hpsql hloc
  simp only [bodyCmds, cleanupCmds, List.cons_append, List.nil_append, List.nodup_cons,
    List.mem_cons, not_or, List.not_mem_nil, not_false_eq_true, List.nodup_nil, and_true]
  exact ⟨⟨(hpod.1.1),
      (hpod.1.2.1),
      (hpod.1.2.2.1),
      (hpod.1.2.2.2.1),
      (ne_of_lastChar h_installCmd1 h_copyCmd (by decide)),
      (ne_of_lastChar h_installCmd1 h_createCmd (by decide)),
      (ne_of_lastChar h_installCmd1 h_restoreCmd (by decide)),
      (ne_of_lastChar h_installCmd1 h_renameOldCmd (by decide)),
      (ne_of_lastChar h_installCmd1 h_renameNewCmd (by decide)),
      (ne_of_lastChar h_installCmd1 h_dropOldCmd (by decide)),
      (ne_of_lastChar h_installCmd1 h_dropRestoreCmd (by decide)),
      (ne_of_lastChar h_installCmd1 h_rmLocalCmd (by decide)),
      (hpod.1.2.2.2.2)⟩,
    ⟨(hpod.2.1.1),
      (hpod.2.1.2.1),
      (hpod.2.1.2.2.1),
      (ne_of_lastChar h_installCmd2 h_copyCmd (by decide)),
      (ne_of_lastChar h_installCmd2 h_createCmd (by decide)),
      (ne_of_lastChar h_installCmd2 h_restoreCmd (by decide)),
      (ne_of_lastChar h_installCmd2 h_renameOldCmd (by decide)),
      (ne_of_lastChar h_installCmd2 h_renameNewCmd (by decide)),
      (ne_of_lastChar h_installCmd2 h_dropOldCmd (by decide)),
      (ne_of_lastChar h_installCmd2 h_dropRestoreCmd (by decide)),
      (ne_of_lastChar h_installCmd2 h_rmLocalCmd (by decide)),
      (hpod.2.1.2.2.2)⟩,
    ⟨(hpod.2.2.1.1),
      (hpod.2.2.1.2.1),
      (ne_of_lastChar h_installCmd3 h_copyCmd (by decide)),
      (ne_of_lastChar h_installCmd3 h_createCmd (by decide)),
      (ne_of_lastChar h_installCmd3 h_restoreCmd (by decide)),
      (ne_of_lastChar h_installCmd3 h_renameOldCmd (by decide)),
      (ne_of_lastChar h_installCmd3 h_renameNewCmd (by decide)),
      (ne_of_lastChar h_installCmd3 h_dropOldCmd (by decide)),
      (ne_of_lastChar h_installCmd3 h_dropRestoreCmd (by decide)),
      (ne_of_lastChar h_installCmd3 h_rmLocalCmd (by decide)),
      (hpod.2.2.1.2.2)⟩,
    ⟨(hpod.2.2.2.1.1),
      (ne_of_lastChar h_installCmd4 h_copyCmd (by decide)),
      (ne_of_lastChar h_installCmd4 h_createCmd (by decide)),
      (ne_of_lastChar h_installCmd4 h_restoreCmd (by decide)),
      (ne_of_lastChar h_installCmd4 h_renameOldCmd (by decide)),
      (ne_of_lastChar h_installCmd4 h_renameNewCmd (by decide)),
      (ne_of_lastChar h_installCmd4 h_dropOldCmd (by decide)),
      (ne_of_lastChar h_installCmd4 h_dropRestoreCmd (by decide)),
      (ne_of_lastChar h_installCmd4 h_rmLocalCmd (by decide)),
      (hpod.2.2.2.1.2)⟩,
    ⟨(ne_of_lastChar h_dumpCmd h_copyCmd (by decide)),
      (ne_of_lastChar h_dumpCmd h_createCmd (by decide)),
      (ne_of_lastChar h_dumpCmd h_restoreCmd (by decide)),
      (ne_of_lastChar h_dumpCmd h_renameOldCmd (by decide)),
      (ne_of_lastChar h_dumpCmd h_renameNewCmd (by decide)),
      (ne_of_lastChar h_dumpCmd h_dropOldCmd (by decide)),
      (ne_of_lastChar h_dumpCmd h_dropRestoreCmd (by decide)),
      (ne_of_lastChar h_dumpCmd h_rmLocalCmd (by decide)),
      (hpod.2.2.2.2)⟩,
    ⟨(ne_of_lastChar h_copyCmd h_createCmd (by decide)),
      (hloc.1.1),
      (ne_of_lastChar h_copyCmd h_renameOldCmd (by decide)),
      (ne_of_lastChar h_copyCmd h_renameNewCmd (by decide)),
      (ne_of_lastChar h_copyCmd h_dropOldCmd (by decide)),
      (ne_of_lastChar h_copyCmd h_dropRestoreCmd (by decide)),
      (hloc.1.2),
      (ne_of_lastChar h_copyCmd h_rmPodCmd (by decide))⟩,
    ⟨(ne_of_lastChar h_createCmd h_restoreCmd (by decide)),
      (hpsql.1.1),
      (hpsql.1.2.1),
      (hpsql.1.2.2.1),
      (hpsql.1.2.2.2),
      (ne_of_lastChar h_createCmd h_rmLocalCmd (by decide)),
      (ne_of_lastChar h_createCmd h_rmPodCmd (by decide))⟩,
    ⟨(ne_of_lastChar h_restoreCmd h_renameOldCmd (by decide)),
      (ne_of_lastChar h_restoreCmd h_renameNewCmd (by decide)),
      (ne_of_lastChar h_restoreCmd h_dropOldCmd (by decide)),
      (ne_of_lastChar h_restoreCmd h_dropRestoreCmd (by decide)),
      (hloc.2),
      (ne_of_lastChar h_restoreCmd h_rmPodCmd (by decide))⟩,
    ⟨(hpsql.2.1.1),
      (hpsql.2.1.2.1),
      (hpsql.2.1.2.2),
      (ne_of_lastChar h_renameOldCmd h_rmLocalCmd (by decide)),
      (ne_of_lastChar h_renameOldCmd h_rmPodCmd (by decide))⟩,
    ⟨(hpsql.2.2.1.1),
      (hpsql.2.2.1.2),
      (ne_of_lastChar h_renameNewCmd h_rmLocalCmd (by decide)),
      (ne_of_lastChar h_renameNewCmd h_rmPodCmd (by decide))⟩,
    ⟨(hpsql.2.2.2),
      (ne_of_lastChar h_dropOldCmd h_rmLocalCmd (by decide)),
      (ne_of_lastChar h_dropOldCmd h_rmPodCmd (by decide))⟩,
    ⟨(ne_of_lastChar h_dropRestoreCmd h_rmLocalCmd (by decide)),
      (ne_of_lastChar h_dropRestoreCmd h_rmPodCmd (by decide))⟩,
    (ne_of_lastChar h_rmLocalCmd h_rmPodCmd (by decide))⟩

/-! ## Stepping through `main` -/

theorem mustRunLocalCmd_eq (env : Env) (c : String) (t : Trace) :
    mustRunLocalCmd env c t =
      if (env t.length).exitCode = 0 then
        (.ok (env t.length).stdout, t ++ [{ cmd := c, result := env t.length }])
      else (.error (.error (env t.length).stderr), t ++ [{ cmd := c, result := env t.length }]) := by
  by_cases h : (env t.length).exitCode = 0 <;>
    simp [mustRunLocalCmd, runLocalCmd, bind, Go.bind, pure, Go.pure, Go.panic, h]

theorem bind_call_must (env : Env) (c : String) (k : String → GoD Unit) (f : Frame) :
    GoD.bind (GoD.call (mustRunLocalCmd env c)) k f =
      if (env f.trace.length).exitCode = 0 then
        k (env f.trace.length).stdout
          { f with trace := f.trace ++ [{ cmd := c, result := env f.trace.length }] }
      else (.error (.error (env f.trace.length).stderr),
          { f with trace := f.trace ++ [{ cmd := c, result := env f.trace.length }] }) := by
  by_cases h : (env f.trace.length).exitCode = 0 <;>
    simp [GoD.bind, GoD.call, mustRunLocalCmd_eq, h]

theorem bind_call_run (env : Env) (c : String) (k : String × Option String → GoD Unit)
    (f : Frame) :
    GoD.bind (GoD.call (runLocalCmd env c)) k f =
      k (if (env f.trace.length).exitCode ≠ 0 then ("", some (env f.trace.length).stderr)
          else ((env f.trace.length).stdout, none))
        { f with trace := f.trace ++ [{ cmd := c, result := env f.trace.length }] } := by
  by_cases h : (env f.trace.length).exitCode = 0 <;>
    simp [GoD.bind, GoD.call, runLocalCmd, h]

theorem bind_defer (d : Go Unit) (k : Unit → GoD Unit) (f : Frame) :
    GoD.bind (defer d) k f = k () { f with defers := d :: f.defers } := by
  simp [GoD.bind, defer]

/-- A deferred call of `main`: one command through `mustRunLocalCmd`. -/
theorem runDeferred_must (env : Env) (c : String) (ds : List (Go Unit)) (p : Option Panic)
    (t : Trace) :
    runDeferred (Go.bind (mustRunLocalCmd env c) (fun _ => Go.pure ()) :: ds) p t =
      runDeferred ds (if (env t.length).exitCode = 0 then p
        else some (.error (env t.length).stderr))
        (t ++ [{ cmd := c, result := env t.length }]) := by
  by_cases h : (env t.length).exitCode = 0 <;>
    simp [runDeferred, Go.bind, Go.pure, mustRunLocalCmd_eq, h]

theorem runDeferred_nil (p : Option Panic) (t : Trace) : runDeferred [] p t = (p, t) := rfl

/-- The trace of `main` is the plan, each command with the result of its position. -/
theorem main_trace (env : Env) (config : Config) (ts : Int) :
    (main env config ts).2 = recordFrom env 0 (plan env config ts) := by
  simp only [main, runFunc, mainBody, bind, monadLift, MonadLift.monadLift, liftM,
    mustRunPodCmd, mustRunKubectlCmd, bind_call_must, bind_call_run, bind_defer,
    List.length_append, List.length_cons, List.length_nil, List.nil_append, Nat.zero_add,
    Nat.reduceAdd, List.append_assoc, List.cons_append, pure, GoD.pure]
  by_cases h0 : (env 0).exitCode = 0
  swap
  · rw [if_neg h0]
    have hb : plan env config ts = [installCmd1 config] := by
      simp [plan, bodyCount, bodyCmds, h0]
    rw [hb]
    simp [runDeferred_must, runDeferred_nil, recordFrom, installCmd1, installCmd2, installCmd3, installCmd4, dumpCmd, copyCmd, createCmd, restoreCmd, renameOldCmd, renameNewCmd, dropOldCmd, dropRestoreCmd, rmLocalCmd, rmPodCmd]
  rw [if_pos h0]
  by_cases h1 : (env 1).exitCode = 0
  swap
  · rw [if_neg h1]
    have hb : plan env config ts = [installCmd1 config, installCmd2 config] := by
      simp [plan, bodyCount, bodyCmds, h0, h1]
    rw [hb]
    simp [runDeferred_must, runDeferred_nil, recordFrom, installCmd1, installCmd2, installCmd3, installCmd4, dumpCmd, copyCmd, createCmd, restoreCmd, renameOldCmd, renameNewCmd, dropOldCmd, dropRestoreCmd, rmLocalCmd, rmPodCmd]
  rw [if_pos h1]
  by_cases h2 : (env 2).exitCode = 0
  swap
  · rw [if_neg h2]
    have hb : plan env config ts = [installCmd1 config, installCmd2 config, installCmd3 config] := by
      simp [plan, bodyCount, bodyCmds, h0, h1, h2]
    rw [hb]
    simp [runDeferred_must, runDeferred_nil, recordFrom, installCmd1, installCmd2, installCmd3, installCmd4, dumpCmd, copyCmd, createCmd, restoreCmd, renameOldCmd, renameNewCmd, dropOldCmd, dropRestoreCmd, rmLocalCmd, rmPodCmd]
  rw [if_pos h2]
  by_cases h3 : (env 3).exitCode = 0
  swap
  · rw [if_neg h3]
    have hb : plan env config ts = [installCmd1 config, installCmd2 config, installCmd3 config, installCmd4 config] := by
      simp [plan, bodyCount, bodyCmds, h0, h1, h2, h3]
    rw [hb]
    simp [runDeferred_must, runDeferred_nil, recordFrom, installCmd1, installCmd2, installCmd3, installCmd4, dumpCmd, copyCmd, createCmd, restoreCmd, renameOldCmd, renameNewCmd, dropOldCmd, dropRestoreCmd, rmLocalCmd, rmPodCmd]
  rw [if_pos h3]
  by_cases h4 : (env 4).exitCode = 0
  swap
  · rw [if_neg h4]
    have hb : plan env config ts = [installCmd1 config, installCmd2 config, installCmd3 config, installCmd4 config, dumpCmd config ts] := by
      simp [plan, bodyCount, bodyCmds, h0, h1, h2, h3, h4]
    rw [hb]
    simp [runDeferred_must, runDeferred_nil, recordFrom, installCmd1, installCmd2, installCmd3, installCmd4, dumpCmd, copyCmd, createCmd, restoreCmd, renameOldCmd, renameNewCmd, dropOldCmd, dropRestoreCmd, rmLocalCmd, rmPodCmd]
  rw [if_pos h4]
  by_cases h5 : (env 5).exitCode = 0
  swap
  · rw [if_neg h5]
    have hb : plan env config ts = [installCmd1 config, installCmd2 config, installCmd3 config, installCmd4 config, dumpCmd config ts, copyCmd config ts, rmPodCmd config ts] := by
      simp [plan, bodyCount, bodyCmds, h0, h1, h2, h3, h4, h5]
    rw [hb]
    simp [runDeferred_must, runDeferred_nil, recordFrom, installCmd1, installCmd2, installCmd3, installCmd4, dumpCmd, copyCmd, createCmd, restoreCmd, renameOldCmd, renameNewCmd, dropOldCmd, dropRestoreCmd, rmLocalCmd, rmPodCmd]
  rw [if_pos h5]
  by_cases h6 : (env 6).exitCode = 0
  swap
  · rw [if_neg h6]
    have hb : plan env config ts = [installCmd1 config, installCmd2 config, installCmd3 config, installCmd4 config, dumpCmd config ts, copyCmd config ts, createCmd config ts, rmLocalCmd ts, rmPodCmd config ts] := by
      simp [plan, bodyCount, bodyCmds, h0, h1, h2, h3, h4, h5, h6]
    rw [hb]
    simp [runDeferred_must, runDeferred_nil, recordFrom, installCmd1, installCmd2, installCmd3, installCmd4, dumpCmd, copyCmd, createCmd, restoreCmd, renameOldCmd, renameNewCmd, dropOldCmd, dropRestoreCmd, rmLocalCmd, rmPodCmd]
  rw [if_pos h6]
  by_cases h8 : (env 8).exitCode = 0
  swap
  · rw [if_neg h8]
    have hb : plan env config ts = [installCmd1 config, installCmd2 config, installCmd3 config, installCmd4 config, dumpCmd config ts, copyCmd config ts, createCmd config ts, restoreCmd config ts, renameOldCmd config ts, dropRestoreCmd config ts, rmLocalCmd ts, rmPodCmd config ts] := by
      simp [plan, bodyCount, bodyCmds, h0, h1, h2, h3, h4, h5, h6, h8]
    rw [hb]
    simp [runDeferred_must, runDeferred_nil, recordFrom, installCmd1, installCmd2, installCmd3, installCmd4, dumpCmd, copyCmd, createCmd, restoreCmd, renameOldCmd, renameNewCmd, dropOldCmd, dropRestoreCmd, rmLocalCmd, rmPodCmd]
  rw [if_pos h8]
  by_cases h9 : (env 9).exitCode = 0
  swap
  · rw [if_neg h9]
    have hb : plan env config ts = [installCmd1 config, installCmd2 config, installCmd3 config, installCmd4 config, dumpCmd config ts, copyCmd config ts, createCmd config ts, restoreCmd config ts, renameOldCmd config ts, renameNewCmd config ts, dropOldCmd config ts, dropRestoreCmd config ts, rmLocalCmd ts, rmPodCmd config ts] := by
      simp [plan, bodyCount, bodyCmds, h0, h1, h2, h3, h4, h5, h6, h8, h9]
    rw [hb]
    simp [runDeferred_must, runDeferred_nil, recordFrom, installCmd1, installCmd2, installCmd3, installCmd4, dumpCmd, copyCmd, createCmd, restoreCmd, renameOldCmd, renameNewCmd, dropOldCmd, dropRestoreCmd, rmLocalCmd, rmPodCmd]
  rw [if_pos h9]
  have hb : plan env config ts = [installCmd1 config, installCmd2 config, installCmd3 config, installCmd4 config, dumpCmd config ts, copyCmd config ts, createCmd config ts, restoreCmd config ts, renameOldCmd config ts, renameNewCmd config ts, dropOldCmd config ts, dropRestoreCmd config ts, rmLocalCmd ts, rmPodCmd config ts] := by
    simp [plan, bodyCount, bodyCmds, h0, h1, h2, h3, h4, h5, h6, h8, h9]
  rw [hb]
  simp [runDeferred_must, runDeferred_nil, recordFrom, installCmd1, installCmd2, installCmd3, installCmd4, dumpCmd, copyCmd, createCmd, restoreCmd, renameOldCmd, renameNewCmd, dropOldCmd, dropRestoreCmd, rmLocalCmd, rmPodCmd]

/-! ## The matcher against the meaning of the expression -/

theorem stripLit_eq_some (l s r : List Char) : stripLit l s = some r ↔ s = l ++ r := by
  induction l generalizing s with
  | nil => simp [stripLit, eq_comm]
  | cons c cs ih =>
    cases s with
    | nil => simp [stripLit]
    | cons d ds =>
      by_cases h : c = d
      · subst h; simp [stripLit, ih]
      · simp [stripLit, h, Ne.symm h]

theorem stripLit_append (l r : List Char) : stripLit l (l ++ r) = some r :=
  (stripLit_eq_some l (l ++ r) r).2 rfl

theorem matchGroup_sound {β : Type} (k : List Char → Option β) (s g : List Char) (r : β)
    (h : matchGroup k s = some (g, r)) :
    ∃ s1, s = g ++ s1 ∧ g ≠ [] ∧ '\n' ∉ g ∧ k s1 = some r := by
  induction s generalizing g with
  | nil => simp [matchGroup] at h
  | cons c cs ih =>
    simp only [matchGroup] at h
    split at h
    · simp at h
    · rename_i hc
      split at h
      · rename_i g1 r1 heq
        simp only [Option.some.injEq, Prod.mk.injEq] at h
        obtain ⟨hg, hr⟩ := h
        subst hg; subst hr
        obtain ⟨s1, hs, _, hn, hk⟩ := ih g1 heq
        refine ⟨s1, by simp [hs], by simp, ?_, hk⟩
        simp only [List.mem_cons, not_or]
        exact ⟨fun h => hc h.symm, hn⟩
      · split at h
        · rename_i r1 heq
          simp only [Option.some.injEq, Prod.mk.injEq] at h
          obtain ⟨hg, hr⟩ := h
          subst hg; subst hr
          refine ⟨cs, by simp, by simp, ?_, heq⟩
          simp only [List.mem_singleton]
          exact fun h => hc h.symm
        · simp at h

theorem matchGroup_complete {β : Type} (k : List Char → Option β) (g s1 : List Char) (r : β)
    (hg : g ≠ []) (hn : '\n' ∉ g) (hk : k s1 = some r) :
    (matchGroup k (g ++ s1)).isSome = true := by
  induction g with
  | nil => exact absurd rfl hg
  | cons c cs ih =>
    have hc : ¬ c = '\n' := fun h => hn (by simp [h])
    have hn1 : '\n' ∉ cs := fun h => hn (by simp [h])
    simp only [List.cons_append, matchGroup, hc, if_false]
    cases hm : matchGroup k (cs ++ s1) with
    | some p => simp
    | none =>
      cases cs with
      | nil =>
        simp only [List.nil_append] at hm ⊢
        simp [hk]
      | cons d ds =>
        have h3 := ih (by simp) hn1
        rw [hm] at h3
        simp at h3

theorem matchItems_sound (items : List RegexItem) (s : List Char) (caps : List (List Char))
    (rest : List Char) (h : matchItems items s = some (caps, rest)) :
    ∃ w, s = w ++ rest ∧ Denotes items w caps := by
  induction items generalizing s caps with
  | nil =>
    simp only [matchItems, Option.some.injEq, Prod.mk.injEq] at h
    exact ⟨[], by simp [h.2], by simp [Denotes, h.1.symm]⟩
  | cons item items ih =>
    cases item with
    | lit l =>
      simp only [matchItems] at h
      split at h
      · simp at h
      · rename_i s1 heq
        obtain ⟨w, hw, hd⟩ := ih s1 caps h
        refine ⟨l ++ w, ?_, w, rfl, hd⟩
        rw [(stripLit_eq_some l s s1).1 heq, hw, List.append_assoc]
    | group =>
      simp only [matchItems] at h
      split at h
      · simp at h
      · rename_i g caps1 rest1 heq
        simp only [Option.some.injEq, Prod.mk.injEq] at h
        obtain ⟨hc, hr⟩ := h
        subst hc; subst hr
        obtain ⟨s1, hs, hg, hn, hk⟩ := matchGroup_sound _ _ _ _ heq
        obtain ⟨w, hw, hd⟩ := ih s1 caps1 hk
        refine ⟨g ++ w, ?_, g, w, caps1, rfl, hg, hn, rfl, hd⟩
        rw [hs, hw, List.append_assoc]

theorem matchItems_complete (items : List RegexItem) (w : List Char) (caps : List (List Char))
    (rest : List Char) (h : Denotes items w caps) :
    (matchItems items (w ++ rest)).isSome = true := by
  induction items generalizing w caps with
  | nil => simp [matchItems]
  | cons item items ih =>
    cases item with
    | lit l =>
      obtain ⟨w1, hw, hd⟩ := h
      subst hw
      simp only [matchItems, List.append_assoc, stripLit_append]
      exact ih w1 caps hd
    | group =>
      obtain ⟨g, w1, caps1, hw, hg, hn, _, hd⟩ := h
      subst hw
      have h1 := ih w1 caps1 hd
      cases hm : matchItems items (w1 ++ rest) with
      | none => simp [hm] at h1
      | some r =>
        have h2 := matchGroup_complete (matchItems items) g (w1 ++ rest) r hg hn hm
        simp only [matchItems, List.append_assoc]
        cases hm2 : matchGroup (matchItems items) (g ++ (w1 ++ rest)) with
        | none => simp [hm2] at h2
        | some p => obtain ⟨g2, c2, r2⟩ := p; simp

theorem findFirst_sound (items : List RegexItem) (s : List Char) (m : List (List Char))
    (rest : List Char) (h : findFirst items s = some (m, rest)) :
    ∃ pre w caps, s = pre ++ w ++ rest ∧ Denotes items w caps ∧ m = w :: caps := by
  induction s with
  | nil =>
    simp only [findFirst] at h
    split at h
    · rename_i caps rest1 heq
      simp only [Option.some.injEq, Prod.mk.injEq] at h
      obtain ⟨hm, hr⟩ := h
      subst hm; subst hr
      obtain ⟨w, hw, hd⟩ := matchItems_sound _ _ _ _ heq
      have hw0 : w = [] := by
        cases w with
        | nil => rfl
        | cons a b => simp at hw
      subst hw0
      exact ⟨[], [], caps, by simpa using hw, hd, rfl⟩
    · simp at h
  | cons c cs ih =>
    simp only [findFirst] at h
    split at h
    · rename_i caps rest1 heq
      simp only [Option.some.injEq, Prod.mk.injEq] at h
      obtain ⟨hm, hr⟩ := h
      subst hm; subst hr
      obtain ⟨w, hw, hd⟩ := matchItems_sound _ _ _ _ heq
      refine ⟨[], w, caps, by simpa using hw, hd, ?_⟩
      rw [hw]
      simp
    · obtain ⟨pre, w, caps, hs, hd, hm⟩ := ih h
      exact ⟨c :: pre, w, caps, by simp [hs], hd, hm⟩

theorem findFirst_complete (items : List RegexItem) (pre w post : List Char)
    (caps : List (List Char)) (h : Denotes items w caps) :
    (findFirst items (pre ++ w ++ post)).isSome = true := by
  induction pre with
  | nil =>
    have h1 := matchItems_complete items w caps post h
    cases hs : w ++ post with
    | nil =>
      rw [hs] at h1
      simp only [List.nil_append, hs, findFirst]
      split
      · simp
      · rename_i hn; simp [hn] at h1
    | cons c cs =>
      rw [hs] at h1
      simp only [List.nil_append, hs, findFirst]
      split
      · simp
      · rename_i hn; simp [hn] at h1
  | cons c cs ih =>
    simp only [List.cons_append, findFirst]
    split
    · simp
    · simpa using ih

theorem findAllStringSubmatch_head (items : List RegexItem) (s : String) :
    (findAllStringSubmatch items s)[0]? =
      (findFirst items s.data).map fun p => p.1.map String.mk := by
  simp only [findAllStringSubmatch, findAllFrom]
  cases findFirst items s.data with
  | none => simp
  | some p => simp

theorem findAllStringSubmatch_length (items : List RegexItem) (s : String)
    (h : findFirst items s.data = none) : (findAllStringSubmatch items s).length = 0 := by
  simp [findAllStringSubmatch, findAllFrom, h]

/-! ## Occurrences of a literal -/

theorem countOcc_pos (l X Y : List Char) : 1 ≤ countOcc l (X ++ (l ++ Y)) := by
  induction X with
  | nil =>
    have h := stripLit_append l Y
    cases hs : l ++ Y with
    | nil => rw [hs] at h; simp [countOcc, h]
    | cons c cs => rw [hs] at h; simp [countOcc, h]
  | cons x X ih =>
    show 1 ≤ countOcc l (x :: (X ++ (l ++ Y)))
    simp only [countOcc]
    omega

/-- A literal that occurs at one position only splits the text in one way only. -/
theorem countOcc_unique (l : List Char) (s : List Char) (h : countOcc l s ≤ 1) :
    ∀ X Y X1 Y1 : List Char, s = X ++ (l ++ Y) → s = X1 ++ (l ++ Y1) → X = X1 := by
  induction s with
  | nil =>
    intro X Y X1 Y1 h1 h2
    have hX : X = [] := by cases X with
      | nil => rfl
      | cons a b => simp at h1
    have hX1 : X1 = [] := by cases X1 with
      | nil => rfl
      | cons a b => simp at h2
    rw [hX, hX1]
  | cons c cs ih =>
    intro X Y X1 Y1 h1 h2
    simp only [countOcc] at h
    cases X with
    | nil =>
      cases X1 with
      | nil => rfl
      | cons x1 X1 =>
        exfalso
        have hs : stripLit l (c :: cs) = some Y := (stripLit_eq_some _ _ _).2 (by simpa using h1)
        have hcs : cs = X1 ++ (l ++ Y1) := by
          simp only [List.cons_append, List.cons.injEq] at h2
          exact h2.2
        have := countOcc_pos l X1 Y1
        rw [← hcs] at this
        simp only [hs, Option.isSome_some, if_true] at h
        omega
    | cons x X =>
      cases X1 with
      | nil =>
        exfalso
        have hs : stripLit l (c :: cs) = some Y1 := (stripLit_eq_some _ _ _).2 (by simpa using h2)
        have hcs : cs = X ++ (l ++ Y) := by
          simp only [List.cons_append, List.cons.injEq] at h1
          exact h1.2
        have := countOcc_pos l X Y
        rw [← hcs] at this
        simp only [hs, Option.isSome_some, if_true] at h
        omega
      | cons x1 X1 =>
        simp only [List.cons_append, List.cons.injEq] at h1 h2
        have hle : countOcc l cs ≤ 1 := by omega
        rw [ih hle X Y X1 Y1 h1.2 h2.2, ← h1.1, ← h2.1]

/-! ## The credential expression -/

theorem denotes_credRegex (w : List Char) (caps : List (List Char)) :
    Denotes credRegex w caps ↔
      ∃ g1 g2 g3 : List Char,
        w = keyIdLit ++ (g1 ++ (secretLit ++ (g2 ++ (tokenLit ++ (g3 ++ expirationLit))))) ∧
        caps = [g1, g2, g3] ∧ g1 ≠ [] ∧ g2 ≠ [] ∧ g3 ≠ [] ∧
        '\n' ∉ g1 ∧ '\n' ∉ g2 ∧ '\n' ∉ g3 := by
  simp only [credRegex, Denotes]
  constructor
  · rintro ⟨w1, h1, g1, w2, c1, h2, hg1, hn1, hc1, w3, h3, g2, w4, c2, h4, hg2, hn2, hc2,
      w5, h5, g3, w6, c3, h6, hg3, hn3, hc3, w7, h7, h8, h9⟩
    refine ⟨g1, g2, g3, ?_, ?_, hg1, hg2, hg3, hn1, hn2, hn3⟩
    · rw [h1, h2, h3, h4, h5, h6, h7, h8, List.append_nil]
    · rw [hc1, hc2, hc3, h9]
  · rintro ⟨g1, g2, g3, hw, hc, hg1, hg2, hg3, hn1, hn2, hn3⟩
    exact ⟨_, hw, g1, _, [g2, g3], rfl, hg1, hn1, hc, _, rfl, g2, _, [g3], rfl, hg2, hn2, rfl,
      _, rfl, g3, _, [], rfl, hg3, hn3, rfl, [], by simp, rfl, rfl⟩

theorem removeSpace_no_newline (s : String) : '\n' ∉ (removeSpace s).data := by
  simp [removeSpace, isSpaceClass]

/-- What `mustGetAccess` does once its two commands have succeeded: it returns the
three groups of the first match, or panics on the index when there is no match. -/
theorem mustGetAccess_eq (env : Env) (config : Config) (t : Trace)
    (h0 : (env t.length).exitCode = 0) (h1 : (env (t.length + 1)).exitCode = 0) :
    (mustGetAccess env config t).1 =
      match findFirst credRegex (removeSpace (env (t.length + 1)).stdout).data with
      | none => .error (.indexOutOfRange 0 0)
      | some (m, _) =>
        match m with
        | [_, g1, g2, g3] =>
          .ok ("AWS_ACCESS_KEY_ID=\"" ++ String.mk g1 ++ "\" AWS_SECRET_ACCESS_KEY=\""
            ++ String.mk g2 ++ "\" AWS_SESSION_TOKEN=\"" ++ String.mk g3 ++ "\"")
        | _ => (mustGetAccess env config t).1 := by
  cases hf : findFirst credRegex (removeSpace (env (t.length + 1)).stdout).data with
  | none =>
    have hlen := findAllStringSubmatch_length credRegex _ hf
    have hhead := findAllStringSubmatch_head credRegex (removeSpace (env (t.length + 1)).stdout)
    rw [hf] at hhead
    simp only [Option.map_none'] at hhead
    simp [mustGetAccess, bind, Go.bind, mustRunLocalCmd_eq, h0, h1, index, hhead, hlen, Go.panic]
  | some p =>
    obtain ⟨m, rest⟩ := p
    have hhead := findAllStringSubmatch_head credRegex (removeSpace (env (t.length + 1)).stdout)
    rw [hf] at hhead
    simp only [Option.map_some'] at hhead
    match m with
    | [w, g1, g2, g3] =>
      simp [mustGetAccess, bind, Go.bind, mustRunLocalCmd_eq, h0, h1, index, hhead, pure, Go.pure]
    | [] => rfl
    | [_] => rfl
    | [_, _] => rfl
    | [_, _, _] => rfl
    | _ :: _ :: _ :: _ :: _ :: _ => rfl

/-! ## Reading the trace through the plan -/

theorem recordFrom_map_cmd (env : Env) (k : Nat) (l : List String) :
    (recordFrom env k l).map Issued.cmd = l := by
  induction l generalizing k with
  | nil => rfl
  | cons c cs ih => simp [recordFrom, ih]

theorem recordFrom_getElem? (env : Env) (k : Nat) (l : List String) (i : Nat) :
    (recordFrom env k l)[i]? = l[i]?.map fun c => { cmd := c, result := env (k + i) } := by
  induction l generalizing k i with
  | nil => simp [recordFrom]
  | cons c cs ih =>
    cases i with
    | zero => simp [recordFrom]
    | succ i =>
      simp only [recordFrom, List.getElem?_cons_succ, ih]
      congr 2
      funext c
      congr 2
      omega

theorem issued_eq_plan (env : Env) (config : Config) (ts : Int) :
    issued env config ts = plan env config ts := by
  rw [issued, main_trace, recordFrom_map_cmd]

theorem main_getElem? (env : Env) (config : Config) (ts : Int) (i : Nat) :
    (main env config ts).2[i]? =
      (plan env config ts)[i]?.map fun c => { cmd := c, result := env i } := by
  rw [main_trace, recordFrom_getElem?]
  simp

/-- The nine shapes a run can have, by the first command that stops the body. -/
theorem plan_cases (env : Env) (config : Config) (ts : Int) :
    ((env 0).exitCode ≠ 0 ∧ plan env config ts = [installCmd1 config]) ∨
    ((env 0).exitCode = 0 ∧ (env 1).exitCode ≠ 0 ∧
      plan env config ts = [installCmd1 config, installCmd2 config]) ∨
    ((env 0).exitCode = 0 ∧ (env 1).exitCode = 0 ∧ (env 2).exitCode ≠ 0 ∧
      plan env config ts = [installCmd1 config, installCmd2 config, installCmd3 config]) ∨
    ((env 0).exitCode = 0 ∧ (env 1).exitCode = 0 ∧ (env 2).exitCode = 0 ∧
      (env 3).exitCode ≠ 0 ∧
      plan env config ts =
        [installCmd1 config, installCmd2 config, installCmd3 config, installCmd4 config]) ∨
    ((env 0).exitCode = 0 ∧ (env 1).exitCode = 0 ∧ (env 2).exitCode = 0 ∧
      (env 3).exitCode = 0 ∧ (env 4).exitCode ≠ 0 ∧
      plan env config ts =
        [installCmd1 config, installCmd2 config, installCmd3 config, installCmd4 config,
          dumpCmd config ts]) ∨
    ((env 0).exitCode = 0 ∧ (env 1).exitCode = 0 ∧ (env 2).exitCode = 0 ∧
      (env 3).exitCode = 0 ∧ (env 4).exitCode = 0 ∧ (env 5).exitCode ≠ 0 ∧
      plan env config ts =
        [installCmd1 config, installCmd2 config, installCmd3 config, installCmd4 config,
          dumpCmd config ts, copyCmd config ts, rmPodCmd config ts]) ∨
    ((env 0).exitCode = 0 ∧ (env 1).exitCode = 0 ∧ (env 2).exitCode = 0 ∧
      (env 3).exitCode = 0 ∧ (env 4).exitCode = 0 ∧ (env 5).exitCode = 0 ∧
      (env 6).exitCode ≠ 0 ∧
      plan env config ts =
        [installCmd1 config, installCmd2 config, installCmd3 config, installCmd4 config,
          dumpCmd config ts, copyCmd config ts, createCmd config ts, rmLocalCmd ts,
          rmPodCmd config ts]) ∨
    ((env 0).exitCode = 0 ∧ (env 1).exitCode = 0 ∧ (env 2).exitCode = 0 ∧
      (env 3).exitCode = 0 ∧ (env 4).exitCode = 0 ∧ (env 5).exitCode = 0 ∧
      (env 6).exitCode = 0 ∧ (env 8).exitCode ≠ 0 ∧
      plan env config ts =
        [installCmd1 config, installCmd2 config, installCmd3 config, installCmd4 config,
          dumpCmd config ts, copyCmd config ts, createCmd config ts, restoreCmd config ts,
          renameOldCmd config ts, dropRestoreCmd config ts, rmLocalCmd ts,
          rmPodCmd config ts]) ∨
    ((env 0).exitCode = 0 ∧ (env 1).exitCode = 0 ∧ (env 2).exitCode = 0 ∧
      (env 3).exitCode = 0 ∧ (env 4).exitCode = 0 ∧ (env 5).exitCode = 0 ∧
      (env 6).exitCode = 0 ∧ (env 8).exitCode = 0 ∧
      plan env config ts =
        [installCmd1 config, installCmd2 config, installCmd3 config, installCmd4 config,
          dumpCmd config ts, copyCmd config ts, createCmd config ts, restoreCmd config ts,
          renameOldCmd config ts, renameNewCmd config ts, dropOldCmd config ts,
          dropRestoreCmd config ts, rmLocalCmd ts, rmPodCmd config ts]) := by
  by_cases h0 : (env 0).exitCode = 0
  swap
  · simp [plan, bodyCount, bodyCmds, h0]
  by_cases h1 : (env 1).exitCode = 0
  swap
  · simp [plan, bodyCount, bodyCmds, h0, h1]
  by_cases h2 : (env 2).exitCode = 0
  swap
  · simp [plan, bodyCount, bodyCmds, h0, h1, h2]
  by_cases h3 : (env 3).exitCode = 0
  swap
  · simp [plan, bodyCount, bodyCmds, h0, h1, h2, h3]
  by_cases h4 : (env 4).exitCode = 0
  swap
  · simp [plan, bodyCount, bodyCmds, h0, h1, h2, h3, h4]
  by_cases h5 : (env 5).exitCode = 0
  swap
  · simp [plan, bodyCount, bodyCmds, h0, h1, h2, h3, h4, h5]
  by_cases h6 : (env 6).exitCode = 0
  swap
  · simp [plan, bodyCount, bodyCmds, h0, h1, h2, h3, h4, h5, h6]
  by_cases h8 : (env 8).exitCode = 0
  swap
  · simp [plan, bodyCount, bodyCmds, h0, h1, h2, h3, h4, h5, h6, h8]
  simp [plan, bodyCount, bodyCmds, h0, h1, h2, h3, h4, h5, h6, h8]

/-- Every pair of different command lines of `main`, in both orders. -/
theorem cmds_ne (config : Config) (ts : Int) :
    (bodyCmds config ts ++ cleanupCmds config ts).Pairwise (fun a b => a ≠ b ∧ b ≠ a) := by
  have h := allCmds_nodup config ts
  rw [List.Nodup] at h
  exact h.imp fun hab => ⟨hab, fun hba => hab hba.symm⟩

/-! ## Claims about `mustGetAccess` -/

/-- C5.  Credential extraction.  Let both commands of `mustGetAccess` succeed, and let
the output of the credential command, with the whitespace of class `\s` removed, be
`P ++ "AccessKeyId":"A","SecretAccessKey":"S","SessionToken":"T","Expiration" ++ Q`
with `A`, `S`, `T` non-empty, each of the four literal pieces of the expression
occurring at one position of the text only.  Then `mustGetAccess` returns exactly
`AWS_ACCESS_KEY_ID="A" AWS_SECRET_ACCESS_KEY="S" AWS_SESSION_TOKEN="T"`.  A key name
that occurs once makes the literal piece around it occur once, and the absence of
double quotes in `A`, `S`, `T` is not needed. -/
theorem mustGetAccess_extracts (env : Env) (config : Config) (t : Trace)
    (P A S T Q : String)
    (h0 : (env t.length).exitCode = 0) (h1 : (env (t.length + 1)).exitCode = 0)
    (hform : removeSpace (env (t.length + 1)).stdout =
      P ++ "\"AccessKeyId\":\"" ++ A ++ "\",\"SecretAccessKey\":\"" ++ S
        ++ "\",\"SessionToken\":\"" ++ T ++ "\",\"Expiration\"" ++ Q)
    (hA : A ≠ "") (hS : S ≠ "") (hT : T ≠ "")
    (hu1 : countOcc keyIdLit
      (removeSpace (env (t.length + 1)).stdout).data = 1)
    (hu2 : countOcc secretLit
      (removeSpace (env (t.length + 1)).stdout).data = 1)
    (hu3 : countOcc tokenLit
      (removeSpace (env (t.length + 1)).stdout).data = 1)
    (hu4 : countOcc expirationLit
      (removeSpace (env (t.length + 1)).stdout).data = 1) :
    (mustGetAccess env config t).1 =
      .ok ("AWS_ACCESS_KEY_ID=\"" ++ A ++ "\" AWS_SECRET_ACCESS_KEY=\"" ++ S
        ++ "\" AWS_SESSION_TOKEN=\"" ++ T ++ "\"") := by
  have hnl := removeSpace_no_newline (env (t.length + 1)).stdout
  have hdata : (removeSpace (env (t.length + 1)).stdout).data =
      P.data ++ (keyIdLit ++ (A.data ++ (secretLit ++ (S.data ++ (tokenLit ++ (T.data ++
        (expirationLit ++ Q.data))))))) := by
    rw [hform]
    simp only [String.data_append, List.append_assoc]
    rfl
  have hA1 : A.data ≠ [] := fun h => hA (String.ext h)
  have hS1 : S.data ≠ [] := fun h => hS (String.ext h)
  have hT1 : T.data ≠ [] := fun h => hT (String.ext h)
  have hnA : '\n' ∉ A.data := fun h => hnl (by rw [hdata]; simp [h])
  have hnS : '\n' ∉ S.data := fun h => hnl (by rw [hdata]; simp [h])
  have hnT : '\n' ∉ T.data := fun h => hnl (by rw [hdata]; simp [h])
  have hden : Denotes credRegex
      (keyIdLit ++ (A.data ++ (secretLit ++ (S.data ++ (tokenLit ++ (T.data ++ expirationLit))))))
      [A.data, S.data, T.data] :=
    (denotes_credRegex _ _).2 ⟨A.data, S.data, T.data, rfl, rfl, hA1, hS1, hT1, hnA, hnS, hnT⟩
  have hsome := findFirst_complete credRegex P.data _ Q.data _ hden
  have hshape : P.data ++ (keyIdLit ++ (A.data ++ (secretLit ++ (S.data ++ (tokenLit ++
      (T.data ++ expirationLit)))))) ++ Q.data =
      (removeSpace (env (t.length + 1)).stdout).data := by
    rw [hdata]
    simp only [List.append_assoc]
  rw [hshape] at hsome
  rw [mustGetAccess_eq env config t h0 h1]
  cases hf : findFirst credRegex (removeSpace (env (t.length + 1)).stdout).data with
  | none => rw [hf] at hsome; simp at hsome
  | some p =>
    obtain ⟨m, rest⟩ := p
    obtain ⟨pre, w, caps, hs, hd, hm⟩ := findFirst_sound _ _ _ _ hf
    obtain ⟨g1, g2, g3, hw, hc, -⟩ := (denotes_credRegex _ _).1 hd
    have hs1 : (removeSpace (env (t.length + 1)).stdout).data =
        pre ++ (keyIdLit ++ (g1 ++ (secretLit ++ (g2 ++ (tokenLit ++ (g3 ++
          (expirationLit ++ rest))))))) := by
      rw [hs, hw]
      simp only [List.append_assoc]
    have e1 : pre = P.data :=
      countOcc_unique keyIdLit _ (le_of_eq hu1) pre
        (g1 ++ (secretLit ++ (g2 ++ (tokenLit ++ (g3 ++ (expirationLit ++ rest))))))
        P.data (A.data ++ (secretLit ++ (S.data ++ (tokenLit ++ (T.data ++
          (expirationLit ++ Q.data)))))) hs1 hdata
    have e2 : pre ++ (keyIdLit ++ g1) = P.data ++ (keyIdLit ++ A.data) :=
      countOcc_unique secretLit _ (le_of_eq hu2) (pre ++ (keyIdLit ++ g1))
        (g2 ++ (tokenLit ++ (g3 ++ (expirationLit ++ rest))))
        (P.data ++ (keyIdLit ++ A.data))
        (S.data ++ (tokenLit ++ (T.data ++ (expirationLit ++ Q.data))))
        (by rw [hs1]; simp only [List.append_assoc]) (by rw [hdata]; simp only [List.append_assoc])
    have e3 : pre ++ (keyIdLit ++ (g1 ++ (secretLit ++ g2))) =
        P.data ++ (keyIdLit ++ (A.data ++ (secretLit ++ S.data))) :=
      countOcc_unique tokenLit _ (le_of_eq hu3) (pre ++ (keyIdLit ++ (g1 ++ (secretLit ++ g2))))
        (g3 ++ (expirationLit ++ rest))
        (P.data ++ (keyIdLit ++ (A.data ++ (secretLit ++ S.data))))
        (T.data ++ (expirationLit ++ Q.data))
        (by rw [hs1]; simp only [List.append_assoc]) (by rw [hdata]; simp only [List.append_assoc])
    have e4 : pre ++ (keyIdLit ++ (g1 ++ (secretLit ++ (g2 ++ (tokenLit ++ g3))))) =
        P.data ++ (keyIdLit ++ (A.data ++ (secretLit ++ (S.data ++ (tokenLit ++ T.data))))) :=
      countOcc_unique expirationLit _ (le_of_eq hu4)
        (pre ++ (keyIdLit ++ (g1 ++ (secretLit ++ (g2 ++ (tokenLit ++ g3)))))) rest
        (P.data ++ (keyIdLit ++ (A.data ++ (secretLit ++ (S.data ++ (tokenLit ++ T.data))))))
        Q.data
        (by rw [hs1]; simp only [List.append_assoc]) (by rw [hdata]; simp only [List.append_assoc])
    subst e1
    have f1 : g1 = A.data := List.append_cancel_left (List.append_cancel_left e2)
    subst f1
    have f2 : g2 = S.data :=
      List.append_cancel_left (List.append_cancel_left (List.append_cancel_left
        (List.append_cancel_left e3)))
    subst f2
    have f3 : g3 = T.data :=
      List.append_cancel_left (List.append_cancel_left (List.append_cancel_left
        (List.append_cancel_left (List.append_cancel_left (List.append_cancel_left e4)))))
    subst f3
    subst hm
    subst hc
    rfl

/-- C10.  Let both commands of `mustGetAccess` succeed.  Then `mustGetAccess` returns an
access string if and only if the output of the credential command, with the
whitespace removed, contains a match of
`"AccessKeyId":"(.+)","SecretAccessKey":"(.+)","SessionToken":"(.+)","Expiration"`,
that is three non-empty texts without newline between the four literal pieces; and
when there is no such match the function panics with the run-time error of indexing
an empty slice at 0. -/
theorem mustGetAccess_returns_iff (env : Env) (config : Config) (t : Trace)
    (h0 : (env t.length).exitCode = 0) (h1 : (env (t.length + 1)).exitCode = 0) :
    ((∃ access, (mustGetAccess env config t).1 = .ok access) ↔
      ∃ pre g1 g2 g3 post : List Char,
        (removeSpace (env (t.length + 1)).stdout).data =
          pre ++ keyIdLit ++ g1 ++ secretLit ++ g2 ++ tokenLit ++ g3 ++ expirationLit ++ post ∧
        g1 ≠ [] ∧ g2 ≠ [] ∧ g3 ≠ [] ∧ '\n' ∉ g1 ∧ '\n' ∉ g2 ∧ '\n' ∉ g3) ∧
    ((¬ ∃ pre g1 g2 g3 post : List Char,
        (removeSpace (env (t.length + 1)).stdout).data =
          pre ++ keyIdLit ++ g1 ++ secretLit ++ g2 ++ tokenLit ++ g3 ++ expirationLit ++ post ∧
        g1 ≠ [] ∧ g2 ≠ [] ∧ g3 ≠ [] ∧ '\n' ∉ g1 ∧ '\n' ∉ g2 ∧ '\n' ∉ g3) →
      (mustGetAccess env config t).1 = .error (.indexOutOfRange 0 0)) := by
  have key : (∃ pre g1 g2 g3 post : List Char,
        (removeSpace (env (t.length + 1)).stdout).data =
          pre ++ keyIdLit ++ g1 ++ secretLit ++ g2 ++ tokenLit ++ g3 ++ expirationLit ++ post ∧
        g1 ≠ [] ∧ g2 ≠ [] ∧ g3 ≠ [] ∧ '\n' ∉ g1 ∧ '\n' ∉ g2 ∧ '\n' ∉ g3) ↔
      (findFirst credRegex (removeSpace (env (t.length + 1)).stdout).data).isSome = true := by
    constructor
    · rintro ⟨pre, g1, g2, g3, post, hs, hg1, hg2, hg3, hn1, hn2, hn3⟩
      have hden := (denotes_credRegex _ [g1, g2, g3]).2
        ⟨g1, g2, g3, rfl, rfl, hg1, hg2, hg3, hn1, hn2, hn3⟩
      have := findFirst_complete credRegex pre _ post _ hden
      rw [hs]
      simpa only [List.append_assoc] using this
    · intro h
      cases hf : findFirst credRegex (removeSpace (env (t.length + 1)).stdout).data with
      | none => rw [hf] at h; simp at h
      | some p =>
        obtain ⟨m, rest⟩ := p
        obtain ⟨pre, w, caps, hs, hd, -⟩ := findFirst_sound _ _ _ _ hf
        obtain ⟨g1, g2, g3, hw, -, hg1, hg2, hg3, hn1, hn2, hn3⟩ := (denotes_credRegex _ _).1 hd
        refine ⟨pre, g1, g2, g3, rest, ?_, hg1, hg2, hg3, hn1, hn2, hn3⟩
        rw [hs, hw]
        simp only [List.append_assoc]
  rw [key, mustGetAccess_eq env config t h0 h1]
  cases hf : findFirst credRegex (removeSpace (env (t.length + 1)).stdout).data with
  | none => simp
  | some p =>
    obtain ⟨m, rest⟩ := p
    obtain ⟨pre, w, caps, hs, hd, hm⟩ := findFirst_sound _ _ _ _ hf
    obtain ⟨g1, g2, g3, hw, hc, -⟩ := (denotes_credRegex _ _).1 hd
    subst hm
    subst hc
    simp

/-! ## Claims about `main` -/

theorem plan_nodup (env : Env) (config : Config) (ts : Int) : (plan env config ts).Nodup := by
  have hne := cmds_ne config ts
  simp only [bodyCmds, cleanupCmds, List.cons_append, List.nil_append, List.pairwise_cons,
    List.mem_cons, List.not_mem_nil, or_false, forall_eq_or_imp, forall_eq, IsEmpty.forall_iff,
    List.Pairwise.nil, and_true, ne_eq, implies_true] at hne
  rcases plan_cases env config ts with ⟨_, hp⟩ | ⟨_, _, hp⟩ | ⟨_, _, _, hp⟩ | ⟨_, _, _, _, hp⟩ |
    ⟨_, _, _, _, _, hp⟩ | ⟨_, _, _, _, _, _, hp⟩ | ⟨_, _, _, _, _, _, _, hp⟩ |
    ⟨_, _, _, _, _, _, _, _, hp⟩ | ⟨_, _, _, _, _, _, _, _, hp⟩ <;>
  · rw [hp]
    simp [hne]

theorem plan_length_le (env : Env) (config : Config) (ts : Int) :
    (plan env config ts).length ≤ 14 := by
  rcases plan_cases env config ts with ⟨_, hp⟩ | ⟨_, _, hp⟩ | ⟨_, _, _, hp⟩ | ⟨_, _, _, _, hp⟩ |
    ⟨_, _, _, _, _, hp⟩ | ⟨_, _, _, _, _, _, hp⟩ | ⟨_, _, _, _, _, _, _, hp⟩ |
    ⟨_, _, _, _, _, _, _, _, hp⟩ | ⟨_, _, _, _, _, _, _, _, hp⟩ <;> simp [hp]

/-- The body stops at the same command in two worlds that agree on the outcomes of
the body commands of the first. -/
theorem bodyCount_congr (env env2 : Env) (h : ∀ i, i < bodyCount env → env2 i = env i) :
    bodyCount env2 = bodyCount env := by
  by_cases h0 : (env 0).exitCode = 0
  swap
  · have e0 := h 0 (by simp [bodyCount, h0])
    simp [bodyCount, h0, e0]
  by_cases h1 : (env 1).exitCode = 0
  swap
  · have hb : bodyCount env = 2 := by simp [bodyCount, h0, h1]
    have e0 := h 0 (by omega)
    have e1 := h 1 (by omega)
    simp [bodyCount, h0, h1, e0, e1]
  by_cases h2 : (env 2).exitCode = 0
  swap
  · have hb : bodyCount env = 3 := by simp [bodyCount, h0, h1, h2]
    have e0 := h 0 (by omega)
    have e1 := h 1 (by omega)
    have e2 := h 2 (by omega)
    simp [bodyCount, h0, h1, h2, e0, e1, e2]
  by_cases h3 : (env 3).exitCode = 0
  swap
  · have hb : bodyCount env = 4 := by simp [bodyCount, h0, h1, h2, h3]
    have e0 := h 0 (by omega)
    have e1 := h 1 (by omega)
    have e2 := h 2 (by omega)
    have e3 := h 3 (by omega)
    simp [bodyCount, h0, h1, h2, h3, e0, e1, e2, e3]
  by_cases h4 : (env 4).exitCode = 0
  swap
  · have hb : bodyCount env = 5 := by simp [bodyCount, h0, h1, h2, h3, h4]
    have e0 := h 0 (by omega)
    have e1 := h 1 (by omega)
    have e2 := h 2 (by omega)
    have e3 := h 3 (by omega)
    have e4 := h 4 (by omega)
    simp [bodyCount, h0, h1, h2, h3, h4, e0, e1, e2, e3, e4]
  by_cases h5 : (env 5).exitCode = 0
  swap
  · have hb : bodyCount env = 6 := by simp [bodyCount, h0, h1, h2, h3, h4, h5]
    have e0 := h 0 (by omega)
    have e1 := h 1 (by omega)
    have e2 := h 2 (by omega)
    have e3 := h 3 (by omega)
    have e4 := h 4 (by omega)
    have e5 := h 5 (by omega)
    simp [bodyCount, h0, h1, h2, h3, h4, h5, e0, e1, e2, e3, e4, e5]
  by_cases h6 : (env 6).exitCode = 0
  swap
  · have hb : bodyCount env = 7 := by simp [bodyCount, h0, h1, h2, h3, h4, h5, h6]
    have e0 := h 0 (by omega)
    have e1 := h 1 (by omega)
    have e2 := h 2 (by omega)
    have e3 := h 3 (by omega)
    have e4 := h 4 (by omega)
    have e5 := h 5 (by omega)
    have e6 := h 6 (by omega)
    simp [bodyCount, h0, h1, h2, h3, h4, h5, h6, e0, e1, e2, e3, e4, e5, e6]
  have hb : 9 ≤ bodyCount env := by
    by_cases h8 : (env 8).exitCode = 0 <;> simp [bodyCount, h0, h1, h2, h3, h4, h5, h6, h8]
  have e0 := h 0 (by omega)
  have e1 := h 1 (by omega)
  have e2 := h 2 (by omega)
  have e3 := h 3 (by omega)
  have e4 := h 4 (by omega)
  have e5 := h 5 (by omega)
  have e6 := h 6 (by omega)
  have e8 := h 8 (by omega)
  simp [bodyCount, h0, h1, h2, h3, h4, h5, h6, e0, e1, e2, e3, e4, e5, e6, e8]

/-- C1.  When every external command succeeds, `main` issues exactly these fourteen
commands, in this order: the four client-install commands in the pod, the pg_dump of
the remote database to `dump_<ts>.sql` in the pod, the kubectl cp of that file to
`~/dump_<ts>.sql`, `CREATE DATABASE <db>_r_<ts>`, the pg_restore of `~/dump_<ts>.sql`
into `<db>_r_<ts>`, the rename of `<db>` to `<db>_<ts>`, the rename of `<db>_r_<ts>` to
`<db>`, and the cleanups `DROP DATABASE <db>_<ts>`, `DROP DATABASE IF EXISTS
<db>_r_<ts>`, `rm -f ~/dump_<ts>.sql` locally and `rm -f dump_<ts>.sql` in the pod. -/
theorem main_issues_full_sequence (env : Env) (config : Config) (ts : Int)
    (h : ∀ n, (env n).exitCode = 0) :
    issued env config ts =
      [podCmdLine config "apt-get update && apt-get install -y lsb-release",
       podCmdLine config
         "echo \"deb http://apt.postgresql.org/pub/repos/apt $(lsb_release -cs)-pgdg main\" > /etc/apt/sources.list.d/pgdg.list",
       podCmdLine config
         "wget --quiet -O - https://www.postgresql.org/media/keys/ACCC4CF8.asc | apt-key add -",
       podCmdLine config "apt-get update && apt-get -y install postgresql-client-12",
       podCmdLine config (buildDumpCmd config.RemoteDb ("dump_" ++ toString ts ++ ".sql")),
       kubectlCmdLine config
         ("cp " ++ config.pod ++ ":/www/yield-engine/" ++ ("dump_" ++ toString ts ++ ".sql")
           ++ " " ++ ("~/" ++ ("dump_" ++ toString ts ++ ".sql"))),
       buildPsqlCmd config.LocalDb config.LocalDb.Database
         ("CREATE DATABASE " ++ (config.LocalDb.Database ++ "_r_" ++ toString ts)),
       buildRestoreCmd config.LocalDb (config.LocalDb.Database ++ "_r_" ++ toString ts)
         ("~/" ++ ("dump_" ++ toString ts ++ ".sql")),
       buildPsqlCmd config.LocalDb (config.LocalDb.Database ++ "_r_" ++ toString ts)
         ("ALTER DATABASE " ++ config.LocalDb.Database ++ " RENAME TO "
           ++ (config.LocalDb.Database ++ "_" ++ toString ts)),
       buildPsqlCmd config.LocalDb (config.LocalDb.Database ++ "_" ++ toString ts)
         ("ALTER DATABASE " ++ (config.LocalDb.Database ++ "_r_" ++ toString ts)
           ++ " RENAME TO " ++ config.LocalDb.Database),
       buildPsqlCmd config.LocalDb config.LocalDb.Database
         ("DROP DATABASE " ++ (config.LocalDb.Database ++ "_" ++ toString ts)),
       buildPsqlCmd config.LocalDb config.LocalDb.Database
         ("DROP DATABASE IF EXISTS " ++ (config.LocalDb.Database ++ "_r_" ++ toString ts)),
       "rm -f " ++ ("~/" ++ ("dump_" ++ toString ts ++ ".sql")),
       podCmdLine config ("rm -f " ++ ("dump_" ++ toString ts ++ ".sql"))] := by
  rw [issued_eq_plan]
  rcases plan_cases env config ts with ⟨h0, _⟩ | ⟨_, h0, _⟩ | ⟨_, _, h0, _⟩ | ⟨_, _, _, h0, _⟩ |
    ⟨_, _, _, _, h0, _⟩ | ⟨_, _, _, _, _, h0, _⟩ | ⟨_, _, _, _, _, _, h0, _⟩ |
    ⟨_, _, _, _, _, _, _, h0, _⟩ | ⟨_, _, _, _, _, _, _, _, hp⟩
  · exact absurd (h 0) h0
  · exact absurd (h 1) h0
  · exact absurd (h 2) h0
  · exact absurd (h 3) h0
  · exact absurd (h 4) h0
  · exact absurd (h 5) h0
  · exact absurd (h 6) h0
  · exact absurd (h 8) h0
  · rw [hp]
    rfl

/-- Witness for C1: the run of the sample configuration at timestamp 1700000000 in
the world where every command succeeds. -/
theorem main_issues_full_sequence_witness :
    (∀ n, (allOkEnv n).exitCode = 0) ∧
    issued allOkEnv sampleConfig 1700000000 =
      ["AWS_ACCESS_KEY_ID=\"A\" kubectl exec -it api-0 -n ns -- bash -c 'apt-get update && apt-get install -y lsb-release'",
       "AWS_ACCESS_KEY_ID=\"A\" kubectl exec -it api-0 -n ns -- bash -c 'echo \"deb http://apt.postgresql.org/pub/repos/apt $(lsb_release -cs)-pgdg main\" > /etc/apt/sources.list.d/pgdg.list'",
       "AWS_ACCESS_KEY_ID=\"A\" kubectl exec -it api-0 -n ns -- bash -c 'wget --quiet -O - https://www.postgresql.org/media/keys/ACCC4CF8.asc | apt-key add -'",
       "AWS_ACCESS_KEY_ID=\"A\" kubectl exec -it api-0 -n ns -- bash -c 'apt-get update && apt-get -y install postgresql-client-12'",
       "AWS_ACCESS_KEY_ID=\"A\" kubectl exec -it api-0 -n ns -- bash -c 'PGPASSWORD=rpw pg_dump -h db.remote -p 5432 -U ro -d prod -Fc -x -f dump_1700000000.sql'",
       "AWS_ACCESS_KEY_ID=\"A\" kubectl -n ns cp api-0:/www/yield-engine/dump_1700000000.sql ~/dump_1700000000.sql",
       "PGPASSWORD=pw psql -h localhost -p 5432 -U me -d app -c \"CREATE DATABASE app_r_1700000000\"",
       "PGPASSWORD=pw pg_restore -h localhost -p 5432 -U me -d app_r_1700000000 -x -O -c --if-exists ~/dump_1700000000.sql",
       "PGPASSWORD=pw psql -h localhost -p 5432 -U me -d app_r_1700000000 -c \"ALTER DATABASE app RENAME TO app_1700000000\"",
       "PGPASSWORD=pw psql -h localhost -p 5432 -U me -d app_1700000000 -c \"ALTER DATABASE app_r_1700000000 RENAME TO app\"",
       "PGPASSWORD=pw psql -h localhost -p 5432 -U me -d app -c \"DROP DATABASE app_1700000000\"",
       "PGPASSWORD=pw psql -h localhost -p 5432 -U me -d app -c \"DROP DATABASE IF EXISTS app_r_1700000000\"",
       "rm -f ~/dump_1700000000.sql",
       "AWS_ACCESS_KEY_ID=\"A\" kubectl exec -it api-0 -n ns -- bash -c 'rm -f dump_1700000000.sql'"] :=
  ⟨fun _ => rfl,
    (main_issues_full_sequence allOkEnv sampleConfig 1700000000 (fun _ => rfl)).trans rfl⟩

theorem plan_subset (env : Env) (config : Config) (ts : Int) (c : String)
    (hc : c ∈ plan env config ts) : c ∈ bodyCmds config ts ++ cleanupCmds config ts := by
  simp only [plan, List.mem_append] at hc
  rcases hc with (((hc | hc) | hc) | hc) | hc
  · exact List.mem_append_left _ (List.mem_of_mem_take hc)
  · split at hc
    · rw [List.mem_singleton] at hc
      subst hc
      exact List.mem_append_right _ (by simp [cleanupCmds])
    · simp at hc
  · split at hc
    · rw [List.mem_singleton] at hc
      subst hc
      exact List.mem_append_right _ (by simp [cleanupCmds])
    · simp at hc
  · split at hc
    · rw [List.mem_singleton] at hc
      subst hc
      exact List.mem_append_right _ (by simp [cleanupCmds])
    · simp at hc
  · split at hc
    · rw [List.mem_singleton] at hc
      subst hc
      exact List.mem_append_right _ (by simp [cleanupCmds])
    · simp at hc

theorem plan_congr (env env2 : Env) (config : Config) (ts : Int)
    (h : bodyCount env2 = bodyCount env) : plan env2 config ts = plan env config ts := by
  simp only [plan, h]

theorem bodyCount_skip_restore (env env2 : Env) (h : ∀ i, i ≠ 7 → env2 i = env i) :
    bodyCount env2 = bodyCount env := by
  simp only [bodyCount, h 0 (by decide), h 1 (by decide), h 2 (by decide), h 3 (by decide),
    h 4 (by decide), h 5 (by decide), h 6 (by decide), h 8 (by decide)]

theorem restoreDb_ne_db (config : Config) (ts : Int) :
    restoreDb config ts ≠ config.LocalDb.Database := by
  intro h
  have h1 := congrArg String.length h
  simp only [restoreDb, String.length_append] at h1
  have h2 : "_r_".length = 3 := rfl
  omega

theorem oldDb_ne_db (config : Config) (ts : Int) :
    oldDb config ts ≠ config.LocalDb.Database := by
  intro h
  have h1 := congrArg String.length h
  simp only [oldDb, String.length_append] at h1
  have h2 : "_".length = 1 := rfl
  omega

theorem restoreDb_ne_oldDb (config : Config) (ts : Int) :
    restoreDb config ts ≠ oldDb config ts := by
  intro h
  have h1 := congrArg String.length h
  simp only [restoreDb, oldDb, String.length_append] at h1
  have h2 : "_r_".length = 3 := rfl
  have h3 : "_".length = 1 := rfl
  omega

/-- C2, as amended.  `DROP DATABASE <db>_<ts>` is issued only if the rename of the live
database `<db>` to `<db>_<ts>` was issued earlier in the run and succeeded, and the
rename of `<db>_r_<ts>` to `<db>` was issued earlier in the run, whatever its outcome:
the drop can only be the command at position 10, after the first rename at position 8
with exit status 0 and the second rename at position 9. -/
theorem dropOld_only_after_renameOld (env : Env) (config : Config) (ts : Int) (j : Nat)
    (h : (issued env config ts)[j]? = some (dropOldCmd config ts)) :
    j = 10 ∧
    (main env config ts).2[8]? = some { cmd := renameOldCmd config ts, result := env 8 } ∧
    (env 8).exitCode = 0 ∧
    (main env config ts).2[9]? = some { cmd := renameNewCmd config ts, result := env 9 } := by
  have hne := cmds_ne config ts
  simp only [bodyCmds, cleanupCmds, List.cons_append, List.nil_append, List.pairwise_cons,
    List.mem_cons, List.not_mem_nil, or_false, forall_eq_or_imp, forall_eq, IsEmpty.forall_iff,
    List.Pairwise.nil, and_true, ne_eq, implies_true] at hne
  rw [issued_eq_plan] at h
  simp only [main_getElem?]
  have hj : j < 14 := by
    have h1 := (List.getElem?_eq_some_iff.1 h).1
    have h2 := plan_length_le env config ts
    omega
  rcases plan_cases env config ts with ⟨_, hp⟩ | ⟨_, _, hp⟩ | ⟨_, _, _, hp⟩ | ⟨_, _, _, _, hp⟩ |
    ⟨_, _, _, _, _, hp⟩ | ⟨_, _, _, _, _, _, hp⟩ | ⟨_, _, _, _, _, _, _, hp⟩ |
    ⟨_, _, _, _, _, _, _, _, hp⟩ | ⟨_, _, _, _, _, _, _, h8, hp⟩
  all_goals rw [hp] at h ⊢
  all_goals interval_cases j <;> simp [hne] at h ⊢
  exact h8

/-- Witness for the amended C2: the run in which every command succeeds. -/
theorem dropOld_only_after_renameOld_witness :
    (issued allOkEnv sampleConfig 1700000000)[10]? =
        some (dropOldCmd sampleConfig 1700000000) ∧
    (main allOkEnv sampleConfig 1700000000).2[8]? =
        some { cmd := renameOldCmd sampleConfig 1700000000, result := allOkEnv 8 } ∧
    (main allOkEnv sampleConfig 1700000000).2[9]? =
        some { cmd := renameNewCmd sampleConfig 1700000000, result := allOkEnv 9 } :=
  have h := dropOld_only_after_renameOld allOkEnv sampleConfig 1700000000 10 rfl
  ⟨rfl, h.2.1, h.2.2.2⟩

/-- Counterexample to C2 as stated: in the world where only the second rename
(position 9) fails, `DROP DATABASE app_1700000000` is issued at position 10 although
the rename of `app_r_1700000000` to `app` did not succeed. -/
theorem dropOld_issued_though_renameNew_failed :
    (main (failAtEnv 9) sampleConfig 1700000000).2[9]? =
        some { cmd := renameNewCmd sampleConfig 1700000000,
               result := { exitCode := 1, stdout := "", stderr := "failed" } } ∧
    (issued (failAtEnv 9) sampleConfig 1700000000)[10]? =
        some "PGPASSWORD=pw psql -h localhost -p 5432 -U me -d app -c \"DROP DATABASE app_1700000000\"" ∧
    succeededIn (main (failAtEnv 9) sampleConfig 1700000000).2
        (renameNewCmd sampleConfig 1700000000) = false :=
  ⟨rfl, rfl, rfl⟩

/-- C3, as amended.  A run never ends with the first rename having succeeded while the
second rename was not issued: when `ALTER DATABASE <db> RENAME TO <db>_<ts>` is in the
trace with exit status 0, it is at position 8 and
`ALTER DATABASE <db>_r_<ts> RENAME TO <db>` is the next command issued.  Nothing is
said about the outcome of the second rename. -/
theorem renameNew_follows_renameOld (env : Env) (config : Config) (ts : Int) (i : Nat)
    (e : Issued) (h : (main env config ts).2[i]? = some e)
    (hcmd : e.cmd = renameOldCmd config ts) (hok : e.result.exitCode = 0) :
    i = 8 ∧
    (main env config ts).2[i + 1]? =
      some { cmd := renameNewCmd config ts, result := env (i + 1) } := by
  have hne := cmds_ne config ts
  simp only [bodyCmds, cleanupCmds, List.cons_append, List.nil_append, List.pairwise_cons,
    List.mem_cons, List.not_mem_nil, or_false, forall_eq_or_imp, forall_eq, IsEmpty.forall_iff,
    List.Pairwise.nil, and_true, ne_eq, implies_true] at hne
  simp only [main_getElem?] at h ⊢
  have hi : i < 14 := by
    cases hp : (plan env config ts)[i]? with
    | none => simp [hp] at h
    | some c =>
      have h1 := (List.getElem?_eq_some_iff.1 hp).1
      have h2 := plan_length_le env config ts
      omega
  rcases plan_cases env config ts with ⟨_, hp⟩ | ⟨_, _, hp⟩ | ⟨_, _, _, hp⟩ | ⟨_, _, _, _, hp⟩ |
    ⟨_, _, _, _, _, hp⟩ | ⟨_, _, _, _, _, _, hp⟩ | ⟨_, _, _, _, _, _, _, hp⟩ |
    ⟨_, _, _, _, _, _, _, h8, hp⟩ | ⟨_, _, _, _, _, _, _, h8, hp⟩
  all_goals rw [hp] at h ⊢
  all_goals interval_cases i <;> simp at h ⊢
  all_goals subst h
  all_goals simp [hne] at hcmd
  all_goals exact absurd hok h8

/-- Witness for the amended C3: the run in which only the second rename fails. -/
theorem renameNew_follows_renameOld_witness :
    (main (failAtEnv 9) sampleConfig 1700000000).2[8]? =
        some { cmd := renameOldCmd sampleConfig 1700000000,
               result := { exitCode := 0, stdout := "", stderr := "" } } ∧
    (main (failAtEnv 9) sampleConfig 1700000000).2[8 + 1]? =
        some { cmd := renameNewCmd sampleConfig 1700000000, result := failAtEnv 9 (8 + 1) } :=
  ⟨rfl, (renameNew_follows_renameOld (failAtEnv 9) sampleConfig 1700000000 8
    { cmd := renameOldCmd sampleConfig 1700000000,
      result := { exitCode := 0, stdout := "", stderr := "" } } rfl rfl rfl).2⟩

/-- Counterexample to C3 as stated: in the world where only the command at position 9
fails, the run ends, by a panic, with the first rename succeeded and the second rename
failed. -/
theorem renameOld_succeeded_renameNew_failed :
    succeededIn (main (failAtEnv 9) sampleConfig 1700000000).2
        (renameOldCmd sampleConfig 1700000000) = true ∧
    issuedIn (main (failAtEnv 9) sampleConfig 1700000000).2
        (renameNewCmd sampleConfig 1700000000) = true ∧
    succeededIn (main (failAtEnv 9) sampleConfig 1700000000).2
        (renameNewCmd sampleConfig 1700000000) = false ∧
    (main (failAtEnv 9) sampleConfig 1700000000).1 = some (Panic.error "failed") :=
  ⟨rfl, rfl, rfl, rfl⟩

/-- C4, as amended.  The outcome of a command is judged by its exit status only:
`runLocalCmd` returns an error if and only if the exit status is non-zero; the error
then carries the standard error text as its message, empty or not, next to an empty
output; otherwise the standard output is returned unchanged with no error, whatever
the standard error holds.  In both cases the command is recorded as issued. -/
theorem runLocalCmd_error_iff_exit (env : Env) (runCmd : String) (t : Trace) :
    ((∃ out msg, (runLocalCmd env runCmd t).1 = .ok (out, some msg)) ↔
      (env t.length).exitCode ≠ 0) ∧
    ((env t.length).exitCode ≠ 0 →
      (runLocalCmd env runCmd t).1 = .ok ("", some (env t.length).stderr)) ∧
    ((env t.length).exitCode = 0 →
      (runLocalCmd env runCmd t).1 = .ok ((env t.length).stdout, none)) ∧
    (runLocalCmd env runCmd t).2 = t ++ [{ cmd := runCmd, result := env t.length }] := by
  by_cases h : (env t.length).exitCode = 0 <;> simp [runLocalCmd, h]

/-- Counterexample to C4 as stated: a command that exits with status 0 and writes to
its standard error is no error, and a command that exits with status 1 and an empty
standard error is one. -/
theorem runLocalCmd_ignores_stderr :
    (runLocalCmd (fun _ => { exitCode := 0, stdout := "done", stderr := "warning" }) "cmd" []).1
        = .ok ("done", none) ∧
    ("warning" : String) ≠ "" ∧
    (runLocalCmd (fun _ => { exitCode := 1, stdout := "partial", stderr := "" }) "cmd" []).1
        = .ok ("", some "") :=
  ⟨rfl, by decide, rfl⟩

/-- C6.  Deferred cleanup.  Whatever the outcomes, the commands of a run are the body
commands issued, followed by exactly the cleanups whose guarded step is in the trace
with exit status 0, in the reverse of the order of the guarded steps: `DROP DATABASE
<db>_<ts>` for the first rename, `DROP DATABASE IF EXISTS <db>_r_<ts>` for `CREATE
DATABASE`, the local `rm` for the kubectl cp, the `rm` in the pod for pg_dump.  No
command line is issued twice, and the outcomes of the cleanup commands themselves
(the positions after the body commands) do not change what is issued: a cleanup that
fails does not keep the remaining ones from running. -/
theorem cleanups_exactly_guarded (env : Env) (config : Config) (ts : Int) :
    issued env config ts =
      (bodyCmds config ts).take (bodyCount env)
        ++ (if succeededIn (main env config ts).2 (renameOldCmd config ts)
            then [dropOldCmd config ts] else [])
        ++ (if succeededIn (main env config ts).2 (createCmd config ts)
            then [dropRestoreCmd config ts] else [])
        ++ (if succeededIn (main env config ts).2 (copyCmd config ts)
            then [rmLocalCmd ts] else [])
        ++ (if succeededIn (main env config ts).2 (dumpCmd config ts)
            then [rmPodCmd config ts] else []) ∧
    bodyCount env ≤ 10 ∧
    (issued env config ts).Nodup ∧
    ∀ env2 : Env, (∀ i, i < bodyCount env → env2 i = env i) →
      issued env2 config ts = issued env config ts := by
  have hne := cmds_ne config ts
  simp only [bodyCmds, cleanupCmds, List.cons_append, List.nil_append, List.pairwise_cons,
    List.mem_cons, List.not_mem_nil, or_false, forall_eq_or_imp, forall_eq, IsEmpty.forall_iff,
    List.Pairwise.nil, and_true, ne_eq, implies_true] at hne
  refine ⟨?_, ?_, ?_, ?_⟩
  · rw [issued_eq_plan, main_trace]
    rcases plan_cases env config ts with ⟨h0, hp⟩ | ⟨h0, h1, hp⟩ | ⟨h0, h1, h2, hp⟩ |
      ⟨h0, h1, h2, h3, hp⟩ | ⟨h0, h1, h2, h3, h4, hp⟩ | ⟨h0, h1, h2, h3, h4, h5, hp⟩ |
      ⟨h0, h1, h2, h3, h4, h5, h6, hp⟩ | ⟨h0, h1, h2, h3, h4, h5, h6, h8, hp⟩ |
      ⟨h0, h1, h2, h3, h4, h5, h6, h8, hp⟩
    all_goals rw [hp]
    all_goals simp [succeededIn, recordFrom, bodyCount, bodyCmds, hne, *]
  · simp only [bodyCount]
    repeat' split
    all_goals decide
  · rw [issued_eq_plan]
    exact plan_nodup env config ts
  · intro env2 h
    rw [issued_eq_plan, issued_eq_plan]
    exact plan_congr env env2 config ts (bodyCount_congr env env2 h)

/-- C7.  In a run that reaches pg_restore (the seven commands before it succeed), the
command at position 7 is `buildRestoreCmd` for the local database, the name
`<db>_r_<ts>` and the file `~/dump_<ts>.sql`, that is `PGPASSWORD=<password> pg_restore
-h <host> -p <port> -U <user> -d <db>_r_<ts> -x -O -c --if-exists ~/dump_<ts>.sql`; its
`-d` argument is the name in the `CREATE DATABASE` at position 6 and differs from the
live name; and the command run in the pod at position 4 is `PGPASSWORD=<password>
pg_dump -h <host> -p <port> -U <user> -d <database> -Fc -x -f dump_<ts>.sql` built from
the remote database. -/
theorem restore_into_temporary_db (env : Env) (config : Config) (ts : Int)
    (h : ∀ i, i < 7 → (env i).exitCode = 0) :
    (issued env config ts)[7]? =
      some (buildRestoreCmd config.LocalDb (config.LocalDb.Database ++ "_r_" ++ toString ts)
        ("~/" ++ ("dump_" ++ toString ts ++ ".sql"))) ∧
    buildRestoreCmd config.LocalDb (config.LocalDb.Database ++ "_r_" ++ toString ts)
        ("~/" ++ ("dump_" ++ toString ts ++ ".sql")) =
      "PGPASSWORD=" ++ config.LocalDb.Password ++ " pg_restore -h " ++ config.LocalDb.Host
        ++ " -p " ++ config.LocalDb.Port ++ " -U " ++ config.LocalDb.Username ++ " -d "
        ++ config.LocalDb.Database ++ "_r_" ++ toString ts ++ " -x -O -c --if-exists ~/dump_"
        ++ toString ts ++ ".sql" ∧
    (issued env config ts)[6]? =
      some (buildPsqlCmd config.LocalDb config.LocalDb.Database
        ("CREATE DATABASE " ++ (config.LocalDb.Database ++ "_r_" ++ toString ts))) ∧
    config.LocalDb.Database ++ "_r_" ++ toString ts ≠ config.LocalDb.Database ∧
    (issued env config ts)[4]? =
      some (podCmdLine config
        (buildDumpCmd config.RemoteDb ("dump_" ++ toString ts ++ ".sql"))) ∧
    buildDumpCmd config.RemoteDb ("dump_" ++ toString ts ++ ".sql") =
      "PGPASSWORD=" ++ config.RemoteDb.Password ++ " pg_dump -h " ++ config.RemoteDb.Host
        ++ " -p " ++ config.RemoteDb.Port ++ " -U " ++ config.RemoteDb.Username ++ " -d "
        ++ config.RemoteDb.Database ++ " -Fc -x -f dump_" ++ toString ts ++ ".sql" := by
  have h0 := h 0 (by decide)
  have h1 := h 1 (by decide)
  have h2 := h 2 (by decide)
  have h3 := h 3 (by decide)
  have h4 := h 4 (by decide)
  have h5 := h 5 (by decide)
  have h6 := h 6 (by decide)
  refine ⟨?_, ?_, ?_, restoreDb_ne_db config ts, ?_, ?_⟩
  · rw [issued_eq_plan]
    by_cases h8 : (env 8).exitCode = 0 <;>
      simp [plan, bodyCount, bodyCmds, h0, h1, h2, h3, h4, h5, h6, h8, restoreCmd,
        restoreDb, backupFileLocal, backupFile]
  · apply String.ext
    simp [buildRestoreCmd, String.data_append]
  · rw [issued_eq_plan]
    by_cases h8 : (env 8).exitCode = 0 <;>
      simp [plan, bodyCount, bodyCmds, h0, h1, h2, h3, h4, h5, h6, h8, createCmd, restoreDb]
  · rw [issued_eq_plan]
    by_cases h8 : (env 8).exitCode = 0 <;>
      simp [plan, bodyCount, bodyCmds, h0, h1, h2, h3, h4, h5, h6, h8, dumpCmd, backupFile]
  · apply String.ext
    simp [buildDumpCmd, String.data_append]

/-- Witness for C7: the run in which every command succeeds. -/
theorem restore_into_temporary_db_witness :
    (∀ i, i < 7 → (allOkEnv i).exitCode = 0) ∧
    (issued allOkEnv sampleConfig 1700000000)[7]? =
      some "PGPASSWORD=pw pg_restore -h localhost -p 5432 -U me -d app_r_1700000000 -x -O -c --if-exists ~/dump_1700000000.sql" ∧
    (issued allOkEnv sampleConfig 1700000000)[6]? =
      some "PGPASSWORD=pw psql -h localhost -p 5432 -U me -d app -c \"CREATE DATABASE app_r_1700000000\"" ∧
    (issued allOkEnv sampleConfig 1700000000)[4]? =
      some "AWS_ACCESS_KEY_ID=\"A\" kubectl exec -it api-0 -n ns -- bash -c 'PGPASSWORD=rpw pg_dump -h db.remote -p 5432 -U ro -d prod -Fc -x -f dump_1700000000.sql'" :=
  have h := restore_into_temporary_db allOkEnv sampleConfig 1700000000 (fun _ _ => rfl)
  ⟨fun _ _ => rfl, h.1.trans rfl, h.2.2.1.trans rfl, h.2.2.2.2.1.trans rfl⟩

/-- C8, as amended.  A failed pg_restore is not fatal.  In a run in which the seven
commands before pg_restore succeed and pg_restore fails, the pg_restore at position 7,
recorded as failed, is followed by the first rename at position 8 and, when that
succeeds, by the second rename at position 9 and the cleanup `DROP DATABASE <db>_<ts>`
at position 10; the commands issued are the same as in any world that differs in the
outcome of pg_restore only.  And pg_restore is the only one of the ten commands of the
body of `main` with this property: in any world, when another body command is reached
and fails, none of the body commands after it is issued.  The deferred cleanups are
left apart. -/
theorem failed_restore_not_fatal (env : Env) (config : Config) (ts : Int)
    (h : ∀ i, i < 7 → (env i).exitCode = 0) (hfail : (env 7).exitCode ≠ 0) :
    (main env config ts).2[7]? = some { cmd := restoreCmd config ts, result := env 7 } ∧
    succeededIn (main env config ts).2 (restoreCmd config ts) = false ∧
    (issued env config ts)[8]? = some (renameOldCmd config ts) ∧
    ((env 8).exitCode = 0 →
      (issued env config ts)[9]? = some (renameNewCmd config ts) ∧
      (issued env config ts)[10]? = some (dropOldCmd config ts)) ∧
    (∀ env2 : Env, (∀ i, i ≠ 7 → env2 i = env i) →
      issued env2 config ts = issued env config ts) ∧
    (∀ (env3 : Env) (k : Nat), k < 10 → k ≠ 7 →
      (∀ i, i < k → i ≠ 7 → (env3 i).exitCode = 0) → (env3 k).exitCode ≠ 0 →
      ∀ (j : Nat) (c : String), k < j → (bodyCmds config ts)[j]? = some c →
        c ∉ issued env3 config ts) := by
  have hne := cmds_ne config ts
  simp only [bodyCmds, cleanupCmds, List.cons_append, List.nil_append, List.pairwise_cons,
    List.mem_cons, List.not_mem_nil, or_false, forall_eq_or_imp, forall_eq, IsEmpty.forall_iff,
    List.Pairwise.nil, and_true, ne_eq, implies_true] at hne
  have h0 := h 0 (by decide)
  have h1 := h 1 (by decide)
  have h2 := h 2 (by decide)
  have h3 := h 3 (by decide)
  have h4 := h 4 (by decide)
  have h5 := h 5 (by decide)
  have h6 := h 6 (by decide)
  refine ⟨?_, ?_, ?_, ?_, ?_, ?_⟩
  · rw [main_getElem?]
    by_cases h8 : (env 8).exitCode = 0 <;>
      simp [plan, bodyCount, bodyCmds, h0, h1, h2, h3, h4, h5, h6, h8]
  · rw [main_trace]
    by_cases h8 : (env 8).exitCode = 0 <;>
      simp [plan, bodyCount, bodyCmds, h0, h1, h2, h3, h4, h5, h6, h8, succeededIn,
        recordFrom, hne, hfail]
  · rw [issued_eq_plan]
    by_cases h8 : (env 8).exitCode = 0 <;>
      simp [plan, bodyCount, bodyCmds, h0, h1, h2, h3, h4, h5, h6, h8]
  · intro h8
    rw [issued_eq_plan]
    simp [plan, bodyCount, bodyCmds, h0, h1, h2, h3, h4, h5, h6, h8]
  · intro env2 h2
    rw [issued_eq_plan, issued_eq_plan]
    exact plan_congr env env2 config ts (bodyCount_skip_restore env env2 h2)
  · intro env3 k hk hk7 hok hbad j c hj hc
    rw [issued_eq_plan]
    have hj10 : j < 10 := by
      have := (List.getElem?_eq_some_iff.1 hc).1
      simpa [bodyCmds] using this
    interval_cases k
    · have e0 := hbad
      have hp : plan env3 config ts = [installCmd1 config] := by
        simp [plan, bodyCount, bodyCmds, e0]
      rw [hp]
      interval_cases j <;> simp [bodyCmds] at hc <;> subst hc <;> simp [hne]
    · have e0 := hok 0 (by decide) (by decide)
      have hp : plan env3 config ts = [installCmd1 config, installCmd2 config] := by
        simp [plan, bodyCount, bodyCmds, e0, hbad]
      rw [hp]
      interval_cases j <;> simp [bodyCmds] at hc <;> subst hc <;> simp [hne]
    · have e0 := hok 0 (by decide) (by decide)
      have e1 := hok 1 (by decide) (by decide)
      have hp : plan env3 config ts =
          [installCmd1 config, installCmd2 config, installCmd3 config] := by
        simp [plan, bodyCount, bodyCmds, e0, e1, hbad]
      rw [hp]
      interval_cases j <;> simp [bodyCmds] at hc <;> subst hc <;> simp [hne]
    · have e0 := hok 0 (by decide) (by decide)
      have e1 := hok 1 (by decide) (by decide)
      have e2 := hok 2 (by decide) (by decide)
      have hp : plan env3 config ts =
          [installCmd1 config, installCmd2 config, installCmd3 config, installCmd4 config] := by
        simp [plan, bodyCount, bodyCmds, e0, e1, e2, hbad]
      rw [hp]
      interval_cases j <;> simp [bodyCmds] at hc <;> subst hc <;> simp [hne]
    · have e0 := hok 0 (by decide) (by decide)
      have e1 := hok 1 (by decide) (by decide)
      have e2 := hok 2 (by decide) (by decide)
      have e3 := hok 3 (by decide) (by decide)
      have hp : plan env3 config ts =
          [installCmd1 config, installCmd2 config, installCmd3 config, installCmd4 config,
            dumpCmd config ts] := by
        simp [plan, bodyCount, bodyCmds, e0, e1, e2, e3, hbad]
      rw [hp]
      interval_cases j <;> simp [bodyCmds] at hc <;> subst hc <;> simp [hne]
    · have e0 := hok 0 (by decide) (by decide)
      have e1 := hok 1 (by decide) (by decide)
      have e2 := hok 2 (by decide) (by decide)
      have e3 := hok 3 (by decide) (by decide)
      have e4 := hok 4 (by decide) (by decide)
      have hp : plan env3 config ts =
          [installCmd1 config, installCmd2 config, installCmd3 config, installCmd4 config,
            dumpCmd config ts, copyCmd config ts, rmPodCmd config ts] := by
        simp [plan, bodyCount, bodyCmds, e0, e1, e2, e3, e4, hbad]
      rw [hp]
      interval_cases j <;> simp [bodyCmds] at hc <;> subst hc <;> simp [hne]
    · have e0 := hok 0 (by decide) (by decide)
      have e1 := hok 1 (by decide) (by decide)
      have e2 := hok 2 (by decide) (by decide)
      have e3 := hok 3 (by decide) (by decide)
      have e4 := hok 4 (by decide) (by decide)
      have e5 := hok 5 (by decide) (by decide)
      have hp : plan env3 config ts =
          [installCmd1 config, installCmd2 config, installCmd3 config, installCmd4 config,
            dumpCmd config ts, copyCmd config ts, createCmd config ts, rmLocalCmd ts,
            rmPodCmd config ts] := by
        simp [plan, bodyCount, bodyCmds, e0, e1, e2, e3, e4, e5, hbad]
      rw [hp]
      interval_cases j <;> simp [bodyCmds] at hc <;> subst hc <;> simp [hne]
    · exact absurd rfl hk7
    · have e0 := hok 0 (by decide) (by decide)
      have e1 := hok 1 (by decide) (by decide)
      have e2 := hok 2 (by decide) (by decide)
      have e3 := hok 3 (by decide) (by decide)
      have e4 := hok 4 (by decide) (by decide)
      have e5 := hok 5 (by decide) (by decide)
      have e6 := hok 6 (by decide) (by decide)
      have hp : plan env3 config ts =
          [installCmd1 config, installCmd2 config, installCmd3 config, installCmd4 config,
            dumpCmd config ts, copyCmd config ts, createCmd config ts, restoreCmd config ts,
            renameOldCmd config ts, dropRestoreCmd config ts, rmLocalCmd ts,
            rmPodCmd config ts] := by
        simp [plan, bodyCount, bodyCmds, e0, e1, e2, e3, e4, e5, e6, hbad]
      rw [hp]
      interval_cases j
      simp [bodyCmds] at hc
      subst hc
      simp [hne]
    · interval_cases j

/-- Witness for the amended C8: the run in which only pg_restore (position 7) fails. -/
theorem failed_restore_not_fatal_witness :
    (failAtEnv 7 7).exitCode ≠ 0 ∧
    issued (failAtEnv 7) sampleConfig 1700000000 =
      issued allOkEnv sampleConfig 1700000000 ∧
    (issued (failAtEnv 7) sampleConfig 1700000000)[8]? =
      some (renameOldCmd sampleConfig 1700000000) ∧
    (issued (failAtEnv 7) sampleConfig 1700000000)[9]? =
      some (renameNewCmd sampleConfig 1700000000) ∧
    (issued (failAtEnv 7) sampleConfig 1700000000)[10]? =
      some (dropOldCmd sampleConfig 1700000000) :=
  have h := failed_restore_not_fatal (failAtEnv 7) sampleConfig 1700000000
    (fun i hi => by interval_cases i <;> rfl) (by decide)
  ⟨by decide, rfl, h.2.2.1, (h.2.2.2.1 rfl).1, (h.2.2.2.1 rfl).2⟩

/-- Counterexample to C8 as stated, at two inputs.  When pg_restore (position 7) and
the first rename (position 8) both fail, the second rename is never issued: the run
ends after position 8 with the three cleanups deferred so far.  And when only the
cleanup `DROP DATABASE app_1700000000` (position 10) fails, the remaining cleanups at
positions 11 to 13 are still issued, so pg_restore is not the only command of `main`
whose failure leaves the rest running. -/
theorem renameNew_skipped_and_cleanup_failure_not_fatal :
    ((failAtBothEnv 7 8 7).exitCode ≠ 0 ∧
      (main (failAtBothEnv 7 8) sampleConfig 1700000000).2[8]? =
        some { cmd := renameOldCmd sampleConfig 1700000000,
               result := { exitCode := 1, stdout := "", stderr := "failed" } } ∧
      issuedIn (main (failAtBothEnv 7 8) sampleConfig 1700000000).2
        (renameNewCmd sampleConfig 1700000000) = false ∧
      issued (failAtBothEnv 7 8) sampleConfig 1700000000 =
        (bodyCmds sampleConfig 1700000000).take 9 ++
          [dropRestoreCmd sampleConfig 1700000000, rmLocalCmd 1700000000,
            rmPodCmd sampleConfig 1700000000]) ∧
    ((main (failAtEnv 10) sampleConfig 1700000000).2[10]? =
        some { cmd := dropOldCmd sampleConfig 1700000000,
               result := { exitCode := 1, stdout := "", stderr := "failed" } } ∧
      (issued (failAtEnv 10) sampleConfig 1700000000).drop 11 =
        [dropRestoreCmd sampleConfig 1700000000, rmLocalCmd 1700000000,
          rmPodCmd sampleConfig 1700000000] ∧
      issued (failAtEnv 10) sampleConfig 1700000000 =
        issued allOkEnv sampleConfig 1700000000) :=
  ⟨⟨by decide, rfl, rfl, rfl⟩, rfl, rfl, rfl⟩

/-- C9.  The live name `<db>`, the restore name `<db>_r_<ts>` and the backup name
`<db>_<ts>` are pairwise different, and every command a run issues is either one of
the nine commands that are not psql calls, or the `CREATE DATABASE` call, or a psql
call that renames or drops a database while connected (`-d`) to a database that is
neither the one renamed or dropped nor the target of the rename. -/
theorem psql_never_targets_connected_db (config : Config) (ts : Int) :
    (config.LocalDb.Database ≠ restoreDb config ts ∧
      config.LocalDb.Database ≠ oldDb config ts ∧
      restoreDb config ts ≠ oldDb config ts) ∧
    ∀ (env : Env) (c : String), c ∈ issued env config ts →
      c = buildPsqlCmd config.LocalDb config.LocalDb.Database
          ("CREATE DATABASE " ++ restoreDb config ts) ∨
      (c = buildPsqlCmd config.LocalDb (restoreDb config ts)
          ("ALTER DATABASE " ++ config.LocalDb.Database ++ " RENAME TO " ++ oldDb config ts) ∧
        restoreDb config ts ≠ config.LocalDb.Database ∧
        restoreDb config ts ≠ oldDb config ts) ∨
      (c = buildPsqlCmd config.LocalDb (oldDb config ts)
          ("ALTER DATABASE " ++ restoreDb config ts ++ " RENAME TO "
            ++ config.LocalDb.Database) ∧
        oldDb config ts ≠ restoreDb config ts ∧
        oldDb config ts ≠ config.LocalDb.Database) ∨
      (c = buildPsqlCmd config.LocalDb config.LocalDb.Database
          ("DROP DATABASE " ++ oldDb config ts) ∧
        config.LocalDb.Database ≠ oldDb config ts) ∨
      (c = buildPsqlCmd config.LocalDb config.LocalDb.Database
          ("DROP DATABASE IF EXISTS " ++ restoreDb config ts) ∧
        config.LocalDb.Database ≠ restoreDb config ts) ∨
      c ∈ [installCmd1 config, installCmd2 config, installCmd3 config, installCmd4 config,
        dumpCmd config ts, copyCmd config ts, restoreCmd config ts, rmLocalCmd ts,
        rmPodCmd config ts] := by
  have d1 := restoreDb_ne_db config ts
  have d2 := oldDb_ne_db config ts
  have d3 := restoreDb_ne_oldDb config ts
  refine ⟨⟨fun h => d1 h.symm, fun h => d2 h.symm, d3⟩, ?_⟩
  intro env c hc
  rw [issued_eq_plan] at hc
  have hc1 := plan_subset env config ts c hc
  simp only [bodyCmds, cleanupCmds, List.cons_append, List.nil_append, List.mem_cons,
    List.not_mem_nil, or_false] at hc1
  rcases hc1 with h | h | h | h | h | h | h | h | h | h | h | h | h | h
  · right; right; right; right; right; rw [h]; simp
  · right; right; right; right; right; rw [h]; simp
  · right; right; right; right; right; rw [h]; simp
  · right; right; right; right; right; rw [h]; simp
  · right; right; right; right; right; rw [h]; simp
  · right; right; right; right; right; rw [h]; simp
  · left; rw [h]; rfl
  · right; right; right; right; right; rw [h]; simp
  · right; left; exact ⟨by rw [h]; rfl, d1, d3⟩
  · right; right; left; exact ⟨by rw [h]; rfl, fun h => d3 h.symm, d2⟩
  · right; right; right; left; exact ⟨by rw [h]; rfl, fun h => d2 h.symm⟩
  · right; right; right; right; left; exact ⟨by rw [h]; rfl, fun h => d1 h.symm⟩
  · right; right; right; right; right; rw [h]; simp
  · right; right; right; right; right; rw [h]; simp

/-- Witness for C5: the sample credential output. -/
theorem mustGetAccess_extracts_witness :
    removeSpace sampleCred =
      "\x7b\"AccessKeyId\":\"AK\",\"SecretAccessKey\":\"s/k\",\"SessionToken\":\"t=\",\"Expiration\":\"2020\"\x7d" ∧
    (mustGetAccess (credEnv sampleCred) sampleConfig []).1 =
      .ok "AWS_ACCESS_KEY_ID=\"AK\" AWS_SECRET_ACCESS_KEY=\"s/k\" AWS_SESSION_TOKEN=\"t=\"" :=
  ⟨by decide,
    mustGetAccess_extracts (credEnv sampleCred) sampleConfig [] "\x7b" "AK" "s/k" "t="
      ":\"2020\"\x7d" rfl rfl (by decide) (by decide) (by decide) (by decide) (by decide)
      (by decide) (by decide) (by decide)⟩

/-- Witness for C10: on an empty credential output there is no match and the function
panics on the index. -/
theorem mustGetAccess_returns_iff_witness :
    (mustGetAccess (credEnv "") sampleConfig []).1 = .error (.indexOutOfRange 0 0) :=
  (mustGetAccess_returns_iff (credEnv "") sampleConfig [] rfl rfl).2 (by
    rintro ⟨pre, g1, g2, g3, post, hs, -⟩
    have h1 := congrArg List.length hs
    simp [removeSpace, credEnv, keyIdLit] at h1
    omega)

/-- An output in which the access key has an empty value has no match. -/
theorem mustGetAccess_panics_on_empty_value :
    (mustGetAccess
      (credEnv "\"AccessKeyId\":\"\",\"SecretAccessKey\":\"s\",\"SessionToken\":\"t\",\"Expiration\"")
      sampleConfig []).1 = .error (.indexOutOfRange 0 0) := rfl

/-- An output in which the session token is missing has no match. -/
theorem mustGetAccess_panics_on_missing_key :
    (mustGetAccess
      (credEnv "\"AccessKeyId\":\"a\",\"SecretAccessKey\":\"s\",\"Expiration\":\"2020\"")
      sampleConfig []).1 = .error (.indexOutOfRange 0 0) := rfl

end Repk8s
